import Mathlib

/-!
Verification of the oxc ECMAScript regular-expression body parser
(`crates/oxc_regexp_parser/src/body_parser/parser/parse.rs`).

The parser is shallowly embedded: source text is a list of Unicode code
points (`List Nat`), the `Reader` cursor and the two-flag `State` are
explicit values, every grammar function takes and returns the reader, and
Rust's `Result<T>` / `Result<Option<T>>` become
`Except String (T × Reader)` / `Except String (Option T × Reader)`.
The mutually recursive grammar functions take an explicit fuel parameter;
running out of fuel yields the reserved error string "fuel", which is
distinct from every diagnostic message the Rust code can produce.
u32 digit accumulation wraps modulo 2^32, as in release-mode Rust.
-/

namespace OxcRe

/-- Code points of a Lean string literal, used to write concrete inputs. -/
def cps (s : String) : List Nat := s.toList.map Char.toNat

/-- UTF-16 code-unit width of one code point. -/
def u16Len (cp : Nat) : Nat := if cp ≥ 65536 then 2 else 1

/-- UTF-8 byte width of one code point (Rust `str::len` counts bytes). -/
def u8Len (cp : Nat) : Nat :=
  if cp < 128 then 1 else if cp < 2048 then 2 else if cp < 65536 then 3 else 4

/-- UTF-8 byte length of a code-point sequence. -/
def utf8Len (l : List Nat) : Nat := l.foldl (fun a c => a + u8Len c) 0

/-! ## Unicode helpers

Modelled from the spec: the character-classification predicates
(`is_decimal_digit`, surrogate predicates, `map_control_escape`, ...) are
external collaborators of the parser core (spec section 1 and section 6);
the crate `body_parser::unicode` is not part of the given sources.  Each is
a pure single-code-point function, modelled here from the spec's contract
and the ECMA-262 lexical grammar it names. -/

def is_decimal_digit (cp : Nat) : Bool := decide (48 ≤ cp ∧ cp ≤ 57)

def is_octal_digit (cp : Nat) : Bool := decide (48 ≤ cp ∧ cp ≤ 55)

/-- ECMA-262 `SyntaxCharacter`: one of `^ $ \ . * + ? ( ) [ ] { } |`. -/
def is_syntax_character (cp : Nat) : Bool :=
  decide (cp = 94 ∨ cp = 36 ∨ cp = 92 ∨ cp = 46 ∨ cp = 42 ∨ cp = 43 ∨ cp = 63 ∨
    cp = 40 ∨ cp = 41 ∨ cp = 91 ∨ cp = 93 ∨ cp = 123 ∨ cp = 125 ∨ cp = 124)

/-- ControlEscape: `f n r t v` to their control code points. -/
def map_control_escape (cp : Nat) : Option Nat :=
  if cp = 102 then some 12
  else if cp = 110 then some 10
  else if cp = 114 then some 13
  else if cp = 116 then some 9
  else if cp = 118 then some 11
  else none

def is_ascii_letter (cp : Nat) : Bool :=
  decide ((65 ≤ cp ∧ cp ≤ 90) ∨ (97 ≤ cp ∧ cp ≤ 122))

/-- `\c AsciiLetter`: the letter's code point modulo 32. -/
def map_c_ascii_letter (cp : Nat) : Option Nat :=
  if is_ascii_letter cp then some (cp % 32) else none

def map_hex_digit (cp : Nat) : Option Nat :=
  if 48 ≤ cp ∧ cp ≤ 57 then some (cp - 48)
  else if 97 ≤ cp ∧ cp ≤ 102 then some (cp - 87)
  else if 65 ≤ cp ∧ cp ≤ 70 then some (cp - 55)
  else none

def hex_val (cp : Nat) : Nat := (map_hex_digit cp).getD 0

def is_lead_surrogate (cp : Nat) : Bool := decide (55296 ≤ cp ∧ cp ≤ 56319)

def is_trail_surrogate (cp : Nat) : Bool := decide (56320 ≤ cp ∧ cp ≤ 57343)

/-- Standard UTF-16 surrogate-pair formula. -/
def combine_surrogate_pair (lead trail : Nat) : Nat :=
  (lead - 55296) * 1024 + (trail - 56320) + 65536

def is_valid_unicode (cp : Nat) : Bool := decide (cp ≤ 1114111)

/-- Modelled from the spec: identifier-start classification (external
table); ASCII letters, `_` and `$` (non-ASCII identifier characters are
irrelevant to the verified claims). -/
def is_identifier_start_char (cp : Nat) : Bool :=
  is_ascii_letter cp || decide (cp = 95 ∨ cp = 36)

/-- Modelled from the spec: identifier-part classification (external table). -/
def is_identifier_part_char (cp : Nat) : Bool :=
  is_identifier_start_char cp || is_decimal_digit cp

/-- Modelled from the spec: `UnicodeIDStart` (external table). -/
def is_unicode_id_start (cp : Nat) : Bool := is_ascii_letter cp

/-- Modelled from the spec: `UnicodeIDContinue` (external table). -/
def is_unicode_id_continue (cp : Nat) : Bool :=
  is_ascii_letter cp || is_decimal_digit cp || decide (cp = 95)

def is_unicode_property_name_character (cp : Nat) : Bool :=
  is_ascii_letter cp || decide (cp = 95)

def is_unicode_property_value_character (cp : Nat) : Bool :=
  is_unicode_property_name_character cp || is_decimal_digit cp

/-! ## Unicode property tables

Modelled from the spec: the property name/value validation tables
(`unicode_property::is_valid_unicode_property`,
`is_valid_lone_unicode_property`,
`is_valid_lone_unicode_property_of_strings`) are external collaborators
(spec section 6); they are modelled with representative entries of each
table.  The verified claims depend only on membership versus
non-membership, not on the full table contents. -/

def property_name_value_table : List (String × String) :=
  [("General_Category", "Ll"), ("General_Category", "Lu"), ("General_Category", "L"),
   ("General_Category", "Nd"), ("Script", "Latin"), ("Script", "Greek")]

def lone_property_table : List String :=
  ["ASCII", "Alphabetic", "Any", "Assigned", "White_Space"]

def lone_property_of_strings_table : List String :=
  ["Basic_Emoji", "Emoji_Keycap_Sequence", "RGI_Emoji"]

def is_valid_unicode_property (name value : List Nat) : Bool :=
  property_name_value_table.any fun p => cps p.1 == name && cps p.2 == value

def is_valid_lone_unicode_property (nv : List Nat) : Bool :=
  lone_property_table.any fun p => cps p == nv

def is_valid_lone_unicode_property_of_strings (nv : List Nat) : Bool :=
  lone_property_of_strings_table.any fun p => cps p == nv

/-! ## Spans and the span factory -/

/-- A source range; positions are UTF-16 code-unit offsets. -/
structure Span where
  start : Nat
  end_ : Nat
deriving Repr, DecidableEq

/-- Modelled from the spec: `oxc_span::Span::merge` is external; the merge
of two source ranges covers both. -/
def Span.merge (a b : Span) : Span := ⟨Nat.min a.start b.start, Nat.max a.end_ b.end_⟩

/-- `SpanFactory::create`: offset a (start, end) pair by the base offset. -/
def SpanFactory.create (offset s e : Nat) : Span := ⟨offset + s, offset + e⟩

/-! ## Reader

Modelled from the spec (section 4.1): a code-point-level cursor with one-
and two-code-point lookahead, conditional multi-code-point `eat` with no
partial consumption on failure, checkpoint/rewind, and a span position in
UTF-16 code units.  The `Reader` implementation is not part of the given
sources. -/

structure Reader where
  src : List Nat
  pos : Nat
deriving Repr, DecidableEq

def Reader.rest (r : Reader) : List Nat := r.src.drop r.pos

def Reader.peek (r : Reader) : Option Nat := r.src[r.pos]?

def Reader.peek2 (r : Reader) : Option Nat := r.src[r.pos + 1]?

def Reader.advance (r : Reader) : Reader := ⟨r.src, r.pos + 1⟩

def Reader.advanceBy (r : Reader) (n : Nat) : Reader := ⟨r.src, r.pos + n⟩

def Reader.eat (r : Reader) (cp : Nat) : Bool × Reader :=
  if r.peek = some cp then (true, r.advance) else (false, r)

def Reader.eat2 (r : Reader) (c1 c2 : Nat) : Bool × Reader :=
  if r.peek = some c1 ∧ r.peek2 = some c2 then (true, r.advanceBy 2) else (false, r)

def Reader.eat3 (r : Reader) (c1 c2 c3 : Nat) : Bool × Reader :=
  if r.peek = some c1 ∧ r.peek2 = some c2 ∧ r.src[r.pos + 2]? = some c3 then
    (true, r.advanceBy 3)
  else (false, r)

def Reader.eat4 (r : Reader) (c1 c2 c3 c4 : Nat) : Bool × Reader :=
  if r.peek = some c1 ∧ r.peek2 = some c2 ∧ r.src[r.pos + 2]? = some c3 ∧
      r.src[r.pos + 3]? = some c4 then
    (true, r.advanceBy 4)
  else (false, r)

/-- UTF-16 code-unit offset of the cursor (spec section 4.1). -/
def Reader.span_position (r : Reader) : Nat :=
  (r.src.take r.pos).foldl (fun a c => a + u16Len c) 0

/-! ## State and options -/

/-- Two-flag mode context threaded through every grammar function. -/
structure State where
  unicode_mode : Bool
  unicode_sets_mode : Bool
deriving Repr, DecidableEq

structure ParserOptions where
  span_offset : Nat
  unicode_flag : Bool
  unicode_sets_flag : Bool
deriving Repr, DecidableEq

/-! ## AST -/

inductive CharacterKind where
  | symbol | singleEscape | controlLetter | null | hexadecimalEscape
  | unicodeEscape | octal | identifier
deriving Repr, DecidableEq

structure Character where
  span : Span
  kind : CharacterKind
  value : Nat
deriving Repr, DecidableEq

inductive CharacterClassEscapeKind where
  | d | negativeD | s | negativeS | w | negativeW
deriving Repr, DecidableEq

structure CharacterClassEscape where
  span : Span
  kind : CharacterClassEscapeKind
deriving Repr, DecidableEq

structure UnicodePropertyEscape where
  span : Span
  negative : Bool
  strings : Bool
  name : List Nat
  value : Option (List Nat)
deriving Repr, DecidableEq

structure CharacterClassRange where
  span : Span
  min : Character
  max : Character
deriving Repr, DecidableEq

inductive CharacterClassContents where
  | character (c : Character)
  | characterClassRange (r : CharacterClassRange)
  | characterClassEscape (e : CharacterClassEscape)
  | unicodePropertyEscape (u : UnicodePropertyEscape)
deriving Repr, DecidableEq

inductive CharacterClassContentsKind where
  | union
deriving Repr, DecidableEq

structure CharacterClass where
  span : Span
  negative : Bool
  kind : CharacterClassContentsKind
  body : List CharacterClassContents
deriving Repr, DecidableEq

inductive BoundaryAssertionKind where
  | start | end_ | boundary | negativeBoundary
deriving Repr, DecidableEq

inductive LookAroundAssertionKind where
  | lookahead | negativeLookahead | lookbehind | negativeLookbehind
deriving Repr, DecidableEq

mutual
inductive Term where
  | boundaryAssertion (span : Span) (kind : BoundaryAssertionKind)
  | lookAroundAssertion (span : Span) (kind : LookAroundAssertionKind) (body : Disjunction)
  | quantifier (span : Span) (min : Nat) (max : Option Nat) (greedy : Bool) (body : Term)
  | character (c : Character)
  | dot (span : Span)
  | characterClassEscape (e : CharacterClassEscape)
  | unicodePropertyEscape (u : UnicodePropertyEscape)
  | characterClass (c : CharacterClass)
  | capturingGroup (span : Span) (name : Option (List Nat)) (body : Disjunction)
  | ignoreGroup (span : Span) (body : Disjunction)
  | indexedReference (span : Span) (index : Nat)
  | namedReference (span : Span) (name : List Nat)

inductive TermList where
  | nil
  | cons (head : Term) (tail : TermList)

inductive Alternative where
  | mk (span : Span) (body : TermList)

inductive AltList where
  | nil
  | cons (head : Alternative) (tail : AltList)

inductive Disjunction where
  | mk (span : Span) (body : AltList)
end

structure Pattern where
  span : Span
  body : Disjunction

/-! ## Leaf grammar functions (no recursion through `Disjunction`) -/

/-- Wrapping u32 accumulation of a decimal-digit code-point run
(`value = 10 * value + (cp - 48)`, modulo 2^32). -/
def digitsVal (ds : List Nat) : Nat :=
  ds.foldl (fun v cp => (10 * v + (cp - 48)) % 4294967296) 0

/-- Wrapping u32 accumulation of a hex-digit code-point run. -/
def hexDigitsVal (ds : List Nat) : Nat :=
  ds.foldl (fun v cp => (16 * v + hex_val cp) % 4294967296) 0

/-- `DecimalDigits[~Sep]`: the digit run, accumulated as wrapping u32.
Returns `none` (consuming nothing) when no digit is present; on success the
digits stay consumed. -/
def consume_decimal_digits (r : Reader) : Option Nat × Reader :=
  let ds := r.rest.takeWhile is_decimal_digit
  if ds.isEmpty then (none, r)
  else (some (digitsVal ds), r.advanceBy ds.length)

/-- `DecimalEscape`: a decimal run with value ≠ 0.  As in the source, a
consumed `0` run is *not* rewound when the zero value is rejected. -/
def consume_decimal_escape (r : Reader) : Option Nat × Reader :=
  match consume_decimal_digits r with
  | (some index, r') => if index ≠ 0 then (some index, r') else (none, r')
  | (none, r') => (none, r')

def consume_hex_digits (r : Reader) : Option Nat × Reader :=
  let ds := r.rest.takeWhile (fun cp => (map_hex_digit cp).isSome)
  if ds.isEmpty then (none, r)
  else (some (hexDigitsVal ds), r.advanceBy ds.length)

def consume_fixed_hex_digits (r : Reader) (len : Nat) : Option Nat × Reader :=
  let ds := r.rest.take len
  if ds.length = len ∧ ds.all (fun cp => (map_hex_digit cp).isSome) then
    (some (hexDigitsVal ds), r.advanceBy len)
  else (none, r)

def consume_octal_digit (r : Reader) : Option Nat × Reader :=
  match r.peek with
  | some cp => if is_octal_digit cp then (some (cp - 48), r.advance) else (none, r)
  | none => (none, r)

/-- `LegacyOctalEscapeSequence` three-tier grammar; note that when the
first digit is 4-7 a consumed third octal digit stays consumed, exactly as
in the source. -/
def consume_legacy_octal_escape_sequence (r : Reader) : Option Nat × Reader :=
  match consume_octal_digit r with
  | (some first, r1) =>
    if first = 0 ∧ (r1.peek = some 56 ∨ r1.peek = some 57) then (some first, r1)
    else
      match consume_octal_digit r1 with
      | (some second, r2) =>
        match consume_octal_digit r2 with
        | (some third, r3) =>
          if first ≤ 3 then (some (first * 64 + second * 8 + third), r3)
          else (some (first * 8 + second), r3)
        | (none, r3) => (some (first * 8 + second), r3)
      | (none, r2) => (some first, r2)
  | (none, r1) => (none, r1)

def consume_identity_escape (ctx : State) (r : Reader) : Option Nat × Reader :=
  match r.peek with
  | some cp =>
    if ctx.unicode_mode ∧ (is_syntax_character cp ∨ cp = 47) then (some cp, r.advance)
    else if ¬ctx.unicode_mode ∧ cp ≠ 99 ∧ cp ≠ 107 then (some cp, r.advance)
    else (none, r)
  | none => (none, r)

/-- `ExtendedPatternCharacter`: any character except `^ $ \ . * + ? ( ) [ |`. -/
def consume_extended_pattern_character (r : Reader) : Option Nat × Reader :=
  match r.peek with
  | some cp =>
    if cp = 94 ∨ cp = 36 ∨ cp = 92 ∨ cp = 46 ∨ cp = 42 ∨ cp = 43 ∨ cp = 63 ∨
        cp = 40 ∨ cp = 41 ∨ cp = 91 ∨ cp = 124 then
      (none, r)
    else (some cp, r.advance)
  | none => (none, r)

/-- `RegExpUnicodeEscapeSequence`: in unicode mode tries, from the
checkpoint after `u`, a surrogate pair, a lone lead surrogate, a lone
trail surrogate, then a plain `Hex4Digits`, then `{ CodePoint }`. -/
def consume_reg_exp_unicode_escape_sequence (ctx : State) (r : Reader) :
    Except String (Option Nat × Reader) :=
  match r.eat 117 with
  | (false, rU) => .ok (none, rU)
  | (true, rU) =>
    let lead_pair : Option (Nat × Reader) :=
      if ctx.unicode_mode then
        match consume_fixed_hex_digits rU 4 with
        | (some lead, r1) =>
          if is_lead_surrogate lead then
            match r1.eat2 92 117 with
            | (true, r2) =>
              match consume_fixed_hex_digits r2 4 with
              | (some trail, r3) =>
                if is_trail_surrogate trail then
                  some (combine_surrogate_pair lead trail, r3)
                else none
              | (none, _) => none
            | (false, _) => none
          else none
        | (none, _) => none
      else none
    match lead_pair with
    | some (cp, r') => .ok (some cp, r')
    | none =>
      let lone_lead : Option (Nat × Reader) :=
        if ctx.unicode_mode then
          match consume_fixed_hex_digits rU 4 with
          | (some lead, r1) => if is_lead_surrogate lead then some (lead, r1) else none
          | (none, _) => none
        else none
      match lone_lead with
      | some (cp, r') => .ok (some cp, r')
      | none =>
        let lone_trail : Option (Nat × Reader) :=
          if ctx.unicode_mode then
            match consume_fixed_hex_digits rU 4 with
            | (some trail, r1) =>
              if is_trail_surrogate trail then some (trail, r1) else none
            | (none, _) => none
          else none
        match lone_trail with
        | some (cp, r') => .ok (some cp, r')
        | none =>
          match consume_fixed_hex_digits rU 4 with
          | (some hexd, r1) => .ok (some hexd, r1)
          | (none, r1) =>
            if ctx.unicode_mode then
              match r1.eat 123 with
              | (true, r2) =>
                match consume_hex_digits r2 with
                | (some hexd, r3) =>
                  if is_valid_unicode hexd then
                    match r3.eat 125 with
                    | (true, r4) => .ok (some hexd, r4)
                    | (false, _) => .error "Invalid unicode escape"
                  else .error "Invalid unicode escape"
                | (none, _) => .error "Invalid unicode escape"
              | (false, _) => .error "Invalid unicode escape"
            else .error "Invalid unicode escape"

/-- `CharacterEscape`: control escape, `\cX`, `\0`, `\xHH`, unicode escape
sequence, legacy octal (non-unicode mode), identity escape. -/
def parse_character_escape (ctx : State) (off : Nat) (span_start : Nat) (r : Reader) :
    Except String (Option Character × Reader) :=
  match r.peek.bind map_control_escape with
  | some cp =>
    .ok (some ⟨SpanFactory.create off span_start r.advance.span_position,
               .singleEscape, cp⟩, r.advance)
  | none =>
    let c_letter : Option (Character × Reader) :=
      match r.eat 99 with
      | (true, r1) =>
        match r1.peek.bind map_c_ascii_letter with
        | some cp =>
          some (⟨SpanFactory.create off span_start r1.advance.span_position,
                 .controlLetter, cp⟩, r1.advance)
        | none => none
      | (false, _) => none
    match c_letter with
    | some (c, r') => .ok (some c, r')
    | none =>
      if (r.peek == some 48) &&
          (match r.peek2 with | some cp2 => !is_decimal_digit cp2 | none => true) then
        .ok (some ⟨SpanFactory.create off span_start r.advance.span_position,
                   .null, 0⟩, r.advance)
      else
        match r.eat 120 with
        | (true, r1) =>
          match consume_fixed_hex_digits r1 2 with
          | (some cp, r2) =>
            .ok (some ⟨SpanFactory.create off span_start r2.span_position,
                       .hexadecimalEscape, cp⟩, r2)
          | (none, _) => .error "Invalid escape"
        | (false, r1) =>
          match consume_reg_exp_unicode_escape_sequence ctx r1 with
          | .error e => .error e
          | .ok (some cp, r2) =>
            .ok (some ⟨SpanFactory.create off span_start r2.span_position,
                       .unicodeEscape, cp⟩, r2)
          | .ok (none, r2) =>
            let octal : Option (Character × Reader) :=
              if ctx.unicode_mode then none
              else
                match consume_legacy_octal_escape_sequence r2 with
                | (some cp, r3) =>
                  some (⟨SpanFactory.create off span_start r3.span_position,
                         .octal, cp⟩, r3)
                | (none, _) => none
            match octal with
            | some (c, r3) => .ok (some c, r3)
            | none =>
              match consume_identity_escape ctx r2 with
              | (some cp, r3) =>
                .ok (some ⟨SpanFactory.create off span_start r3.span_position,
                           .identifier, cp⟩, r3)
              | (none, r3) => .ok (none, r3)

/-- `CharacterClassEscape`: `d D s S w W`. -/
def parse_character_class_escape (off : Nat) (span_start : Nat) (r : Reader) :
    Option CharacterClassEscape × Reader :=
  match r.eat 100 with
  | (true, r') => (some ⟨SpanFactory.create off span_start r'.span_position, .d⟩, r')
  | (false, _) =>
  match r.eat 68 with
  | (true, r') => (some ⟨SpanFactory.create off span_start r'.span_position, .negativeD⟩, r')
  | (false, _) =>
  match r.eat 115 with
  | (true, r') => (some ⟨SpanFactory.create off span_start r'.span_position, .s⟩, r')
  | (false, _) =>
  match r.eat 83 with
  | (true, r') => (some ⟨SpanFactory.create off span_start r'.span_position, .negativeS⟩, r')
  | (false, _) =>
  match r.eat 119 with
  | (true, r') => (some ⟨SpanFactory.create off span_start r'.span_position, .w⟩, r')
  | (false, _) =>
  match r.eat 87 with
  | (true, r') => (some ⟨SpanFactory.create off span_start r'.span_position, .negativeW⟩, r')
  | (false, r') => (none, r')

/-- `UnicodePropertyName` scan; mirrors the source's early return through
`peek()?` — reaching end of input inside the scan yields `none` without
rewinding. -/
def consume_unicode_property_name (r : Reader) : Option (List Nat) × Reader :=
  let ds := r.rest.takeWhile is_unicode_property_name_character
  let r' := r.advanceBy ds.length
  if r'.peek = none then (none, r')
  else if ds.isEmpty then (none, r') else (some ds, r')

def consume_unicode_property_value (r : Reader) : Option (List Nat) × Reader :=
  let ds := r.rest.takeWhile is_unicode_property_value_character
  let r' := r.advanceBy ds.length
  if r'.peek = none then (none, r')
  else if ds.isEmpty then (none, r') else (some ds, r')

/-- `UnicodePropertyValueExpression`: `Name=Value` first (with rewind on
failure), then a lone name-or-value checked against General_Category
values, lone binary properties, then properties of strings (the last legal
only in unicode-sets mode).  Returns `(name, value, is_strings_related)`. -/
def consume_unicode_property_value_expression (ctx : State) (r : Reader) :
    Except String (Option (List Nat × Option (List Nat) × Bool) × Reader) :=
  let name_value : Option (Except String (Option (List Nat × Option (List Nat) × Bool) × Reader)) :=
    match consume_unicode_property_name r with
    | (some name, r1) =>
      match r1.eat 61 with
      | (true, r2) =>
        match consume_unicode_property_value r2 with
        | (some value, r3) =>
          if is_valid_unicode_property name value then
            some (.ok (some (name, some value, false), r3))
          else some (.error "Invalid property name")
        | (none, _) => none
      | (false, _) => none
    | (none, _) => none
  match name_value with
  | some res => res
  | none =>
    match consume_unicode_property_value r with
    | (some nv, r1) =>
      if is_valid_unicode_property (cps "General_Category") nv then
        .ok (some (cps "General_Category", some nv, false), r1)
      else if is_valid_lone_unicode_property nv then
        .ok (some (nv, none, false), r1)
      else if is_valid_lone_unicode_property_of_strings nv then
        if ¬ctx.unicode_sets_mode then .error "Syntax Error"
        else .ok (some (nv, none, true), r1)
      else .error "Invalid property name"
    | (none, r1) => .ok (none, r1)

/-- The `{ UnicodePropertyValueExpression }` tail of
`parse_character_class_escape_unicode`, with `negative` already decided by
the `p` / `P` letter. -/
def parse_character_class_escape_unicode_body (ctx : State) (off span_start : Nat)
    (negative : Bool) (r : Reader) : Except String (Option UnicodePropertyEscape × Reader) :=
  match r.eat 123 with
  | (true, r2) =>
    match consume_unicode_property_value_expression ctx r2 with
    | .error e => .error e
    | .ok (some (name, value, is_strings_related), r3) =>
      if negative ∧ is_strings_related then .error "Invalid property name"
      else
        match r3.eat 125 with
        | (true, r4) =>
          .ok (some ⟨SpanFactory.create off span_start r4.span_position,
                     negative, is_strings_related, name, value⟩, r4)
        | (false, _) => .error "Unterminated unicode property escape"
    | .ok (none, _) => .error "Unterminated unicode property escape"
  | (false, _) => .error "Unterminated unicode property escape"

/-- `\p{...}` / `\P{...}` (unicode mode only).  As in the source,
lowercase `p` sets `negative` to `true` and uppercase `P` sets it to
`false`; a negative property of strings is rejected. -/
def parse_character_class_escape_unicode (ctx : State) (off : Nat) (span_start : Nat)
    (r : Reader) : Except String (Option UnicodePropertyEscape × Reader) :=
  if ¬ctx.unicode_mode then .ok (none, r)
  else
    match r.eat 112 with
    | (true, r1) => parse_character_class_escape_unicode_body ctx off span_start true r1
    | (false, _) =>
      match r.eat 80 with
      | (true, r1) => parse_character_class_escape_unicode_body ctx off span_start false r1
      | (false, r1) => .ok (none, r1)

/-- `RegExpIdentifierStart` after the plain-character attempt failed:
`\ RegExpUnicodeEscapeSequence`, then the Annex B surrogate-pair form. -/
def consume_reg_exp_idenfigier_start_surrogate (ctx : State) (r : Reader) :
    Except String (Option Nat × Reader) :=
  if ctx.unicode_mode then .ok (none, r)
  else
    match r.peek, r.peek2 with
    | some lead, some trail =>
      if is_lead_surrogate lead ∧ is_trail_surrogate trail then
        let cp := combine_surrogate_pair lead trail
        if ¬is_unicode_id_start cp then .error "Invalid surrogate pair"
        else .ok (some cp, r.advance.advance)
      else .ok (none, r)
    | _, _ => .ok (none, r)

/-- The escape/surrogate tail of `consume_reg_exp_idenfigier_start`. -/
def consume_reg_exp_idenfigier_start_tail (ctx : State) (r : Reader) :
    Except String (Option Nat × Reader) :=
  match r.eat 92 with
  | (true, r1) =>
    match consume_reg_exp_unicode_escape_sequence ctx r1 with
    | .error e => .error e
    | .ok (some cp, r2) =>
      if ¬is_identifier_start_char cp then .error "Invalid unicode escape sequence"
      else .ok (some cp, r2)
    | .ok (none, r2) => consume_reg_exp_idenfigier_start_surrogate ctx r2
  | (false, r1) => consume_reg_exp_idenfigier_start_surrogate ctx r1

def consume_reg_exp_idenfigier_start (ctx : State) (r : Reader) :
    Except String (Option Nat × Reader) :=
  match r.peek with
  | some cp =>
    if is_identifier_start_char cp then .ok (some cp, r.advance)
    else consume_reg_exp_idenfigier_start_tail ctx r
  | none => consume_reg_exp_idenfigier_start_tail ctx r

def consume_reg_exp_idenfigier_part_surrogate (ctx : State) (r : Reader) :
    Except String (Option Nat × Reader) :=
  if ctx.unicode_mode then .ok (none, r)
  else
    match r.peek, r.peek2 with
    | some lead, some trail =>
      if is_lead_surrogate lead ∧ is_trail_surrogate trail then
        let cp := combine_surrogate_pair lead trail
        if ¬is_unicode_id_continue cp then .error "Invalid surrogate pair"
        else .ok (some cp, r.advance.advance)
      else .ok (none, r)
    | _, _ => .ok (none, r)

/-- The escape/surrogate tail of `consume_reg_exp_idenfigier_part`. -/
def consume_reg_exp_idenfigier_part_tail (ctx : State) (r : Reader) :
    Except String (Option Nat × Reader) :=
  match r.eat 92 with
  | (true, r1) =>
    match consume_reg_exp_unicode_escape_sequence ctx r1 with
    | .error e => .error e
    | .ok (some cp, r2) =>
      if ¬is_identifier_part_char cp then .error "Invalid unicode escape sequence"
      else .ok (some cp, r2)
    | .ok (none, r2) => consume_reg_exp_idenfigier_part_surrogate ctx r2
  | (false, r1) => consume_reg_exp_idenfigier_part_surrogate ctx r1

def consume_reg_exp_idenfigier_part (ctx : State) (r : Reader) :
    Except String (Option Nat × Reader) :=
  match r.peek with
  | some cp =>
    if is_identifier_part_char cp then .ok (some cp, r.advance)
    else consume_reg_exp_idenfigier_part_tail ctx r
  | none => consume_reg_exp_idenfigier_part_tail ctx r

/-- The `while consume_reg_exp_idenfigier_part()?.is_some()` loop; every
successful part consumes at least one code point, so the remaining input
length bounds the iteration count. -/
def consume_ident_parts : Nat → State → Reader → Except String Reader
  | 0, _, _ => .error "fuel"
  | fuel + 1, ctx, r =>
    match consume_reg_exp_idenfigier_part ctx r with
    | .error e => .error e
    | .ok (some _, r') => consume_ident_parts fuel ctx r'
    | .ok (none, r') => .ok r'

/-- `RegExpIdentifierName`: the consumed text (the source slices the text
between the start and end cursor positions; for a scan that is exactly the
consumed code points). -/
def consume_reg_exp_idenfigier_name (ctx : State) (r : Reader) :
    Except String (Option (List Nat) × Reader) :=
  let span_start := r.pos
  match consume_reg_exp_idenfigier_start ctx r with
  | .error e => .error e
  | .ok (some _, r1) =>
    match consume_ident_parts (r1.rest.length + 1) ctx r1 with
    | .error e => .error e
    | .ok r2 => .ok (some ((r2.src.take r2.pos).drop span_start), r2)
  | .ok (none, r1) => .ok (none, r1)

/-- `GroupName`: `< RegExpIdentifierName >`. -/
def consume_group_name (ctx : State) (r : Reader) :
    Except String (Option (List Nat) × Reader) :=
  match r.eat 60 with
  | (false, r1) => .ok (none, r1)
  | (true, r1) =>
    match consume_reg_exp_idenfigier_name ctx r1 with
    | .error e => .error e
    | .ok (some group_name, r2) =>
      match r2.eat 62 with
      | (true, r3) => .ok (some group_name, r3)
      | (false, _) => .error "Invalid capture group name"
    | .ok (none, _) => .error "Invalid capture group name"

/-- `AtomEscape`: decimal backreference, character-class escape, unicode
property escape, character escape, `\k GroupName`; otherwise a hard
"Invalid atom escape" error (this function never succeeds with `none`). -/
def parse_atom_escape (ctx : State) (off : Nat) (span_start : Nat) (r : Reader) :
    Except String (Option Term × Reader) :=
  match consume_decimal_escape r with
  | (some index, r1) =>
    .ok (some (.indexedReference (SpanFactory.create off span_start r1.span_position) index), r1)
  | (none, r1) =>
  match parse_character_class_escape off span_start r1 with
  | (some e, r2) => .ok (some (.characterClassEscape e), r2)
  | (none, r2) =>
  match parse_character_class_escape_unicode ctx off span_start r2 with
  | .error e => .error e
  | .ok (some u, r3) => .ok (some (.unicodePropertyEscape u), r3)
  | .ok (none, r3) =>
  match parse_character_escape ctx off span_start r3 with
  | .error e => .error e
  | .ok (some c, r4) => .ok (some (.character c), r4)
  | .ok (none, r4) =>
  match r4.eat 107 with
  | (true, r5) =>
    match consume_group_name ctx r5 with
    | .error e => .error e
    | .ok (some name, r6) =>
      .ok (some (.namedReference (SpanFactory.create off span_start r6.span_position) name), r6)
    | .ok (none, _) => .error "Invalid named reference"
  | (false, _) => .error "Invalid atom escape"

/-- `ClassEscape`: `b`, unicode-mode `-`, Annex B `c ClassControlLetter`,
character-class escape, unicode property escape, character escape. -/
def parse_class_escape (ctx : State) (off : Nat) (span_start : Nat) (r : Reader) :
    Except String (Option CharacterClassContents × Reader) :=
  match r.eat 98 with
  | (true, r1) =>
    .ok (some (.character ⟨SpanFactory.create off span_start r1.span_position, .symbol, 98⟩), r1)
  | (false, _) =>
  match (if ctx.unicode_mode then r.eat 45 else (false, r)) with
  | (true, r1) =>
    .ok (some (.character ⟨SpanFactory.create off span_start r1.span_position, .symbol, 45⟩), r1)
  | (false, _) =>
  let class_control : Option (CharacterClassContents × Reader) :=
    if ctx.unicode_mode then none
    else
      match r.eat 99 with
      | (true, r1) =>
        match r1.peek with
        | some cp =>
          if is_decimal_digit cp ∨ cp = 45 then
            some (.character ⟨SpanFactory.create off span_start r1.advance.span_position,
                              .controlLetter, cp⟩, r1.advance)
          else none
        | none => none
      | (false, _) => none
  match class_control with
  | some (c, r1) => .ok (some c, r1)
  | none =>
  match parse_character_class_escape off span_start r with
  | (some e, r1) => .ok (some (.characterClassEscape e), r1)
  | (none, r1) =>
  match parse_character_class_escape_unicode ctx off span_start r1 with
  | .error e => .error e
  | .ok (some u, r2) => .ok (some (.unicodePropertyEscape u), r2)
  | .ok (none, r2) =>
  match parse_character_escape ctx off span_start r2 with
  | .error e => .error e
  | .ok (some c, r3) => .ok (some (.character c), r3)
  | .ok (none, r3) => .ok (none, r3)

/-- The `\ ClassEscape` / literal-backslash tail of
`parse_class_atom_no_dash`. -/
def parse_class_atom_no_dash_escape (ctx : State) (off span_start : Nat) (r : Reader) :
    Except String (Option CharacterClassContents × Reader) :=
  match r.eat 92 with
  | (true, r1) =>
    if r1.peek = some 99 then
      .ok (some (.character ⟨SpanFactory.create off span_start r1.span_position,
                             .symbol, 92⟩), r1)
    else
      match parse_class_escape ctx off span_start r1 with
      | .error e => .error e
      | .ok (some class_escape, r2) => .ok (some class_escape, r2)
      | .ok (none, _) => .error "Invalid class escape"
  | (false, r1) => .ok (none, r1)

/-- `ClassAtomNoDash`: a plain character other than backslash, `]`, `-`;
otherwise the escape tail. -/
def parse_class_atom_no_dash (ctx : State) (off : Nat) (r : Reader) :
    Except String (Option CharacterClassContents × Reader) :=
  let span_start := r.span_position
  match r.peek with
  | some cp =>
    if cp ≠ 92 ∧ cp ≠ 93 ∧ cp ≠ 45 then
      .ok (some (.character ⟨SpanFactory.create off span_start r.advance.span_position,
                             .symbol, cp⟩), r.advance)
    else parse_class_atom_no_dash_escape ctx off span_start r
  | none => parse_class_atom_no_dash_escape ctx off span_start r

/-- `ClassAtom`: `-` or `ClassAtomNoDash`. -/
def parse_class_atom (ctx : State) (off : Nat) (r : Reader) :
    Except String (Option CharacterClassContents × Reader) :=
  let span_start := r.span_position
  match r.eat 45 with
  | (true, r1) =>
    .ok (some (.character ⟨SpanFactory.create off span_start r1.span_position,
                           .symbol, 45⟩), r1)
  | (false, r1) => parse_class_atom_no_dash ctx off r1

/-- `Quantifier` / `QuantifierPrefix`; returns `((min, max), greedy)`. -/
def consume_quantifier (r : Reader) :
    Except String (Option ((Nat × Option Nat) × Bool) × Reader) :=
  match r.eat 42 with
  | (true, r1) =>
    match r1.eat 63 with
    | (true, r2) => .ok (some ((0, none), false), r2)
    | (false, r2) => .ok (some ((0, none), true), r2)
  | (false, _) =>
  match r.eat 43 with
  | (true, r1) =>
    match r1.eat 63 with
    | (true, r2) => .ok (some ((1, none), false), r2)
    | (false, r2) => .ok (some ((1, none), true), r2)
  | (false, _) =>
  match r.eat 63 with
  | (true, r1) =>
    match r1.eat 63 with
    | (true, r2) => .ok (some ((0, some 1), false), r2)
    | (false, r2) => .ok (some ((0, some 1), true), r2)
  | (false, _) =>
  match r.eat 123 with
  | (true, r1) =>
    match consume_decimal_digits r1 with
    | (some min, r2) =>
      match r2.eat 125 with
      | (true, r3) =>
        match r3.eat 63 with
        | (true, r4) => .ok (some ((min, some min), false), r4)
        | (false, r4) => .ok (some ((min, some min), true), r4)
      | (false, r3) =>
        match r3.eat 44 with
        | (true, r4) =>
          match r4.eat 125 with
          | (true, r5) =>
            match r5.eat 63 with
            | (true, r6) => .ok (some ((min, none), false), r6)
            | (false, r6) => .ok (some ((min, none), true), r6)
          | (false, r5) =>
            match consume_decimal_digits r5 with
            | (some max, r6) =>
              match r6.eat 125 with
              | (true, r7) =>
                if max < min then .error "Numbers out of order in braced quantifier"
                else
                  match r7.eat 63 with
                  | (true, r8) => .ok (some ((min, some max), false), r8)
                  | (false, r8) => .ok (some ((min, some max), true), r8)
              | (false, _) => .error "Unterminated quantifier"
            | (none, _) => .error "Unterminated quantifier"
        | (false, _) => .error "Unterminated quantifier"
    | (none, _) => .error "Unterminated quantifier"
  | (false, r1) => .ok (none, r1)

/-! ## The recursive grammar driver

The mutually recursive functions take an explicit fuel argument; every
recursive call uses the structurally smaller fuel.  Recursion depth is
proportional to nesting depth plus input length, so any fuel of at least
`2 * (length of the source) + 8` is sufficient for the concrete inputs
used below. -/

mutual

/-- `Disjunction`: one or more `|`-separated alternatives. -/
def parse_disjunction : Nat → State → Nat → Reader → Except String (Disjunction × Reader)
  | 0, _, _, _ => .error "fuel"
  | fuel + 1, ctx, off, r =>
    let span_start := r.span_position
    match parse_disjunction_list fuel ctx off r with
    | .error e => .error e
    | .ok (body, r') =>
      .ok (⟨SpanFactory.create off span_start r'.span_position, body⟩, r')

/-- The alternative-collecting loop of `parse_disjunction`. -/
def parse_disjunction_list : Nat → State → Nat → Reader → Except String (AltList × Reader)
  | 0, _, _, _ => .error "fuel"
  | fuel + 1, ctx, off, r =>
    match parse_alternative fuel ctx off r with
    | .error e => .error e
    | .ok (alt, r1) =>
      match r1.eat 124 with
      | (true, r2) =>
        match parse_disjunction_list fuel ctx off r2 with
        | .error e => .error e
        | .ok (rest, r3) => .ok (.cons alt rest, r3)
      | (false, r2) => .ok (.cons alt .nil, r2)

/-- `Alternative`: zero or more terms. -/
def parse_alternative : Nat → State → Nat → Reader → Except String (Alternative × Reader)
  | 0, _, _, _ => .error "fuel"
  | fuel + 1, ctx, off, r =>
    let span_start := r.span_position
    match parse_term_list fuel ctx off r with
    | .error e => .error e
    | .ok (body, r') =>
      .ok (.mk (SpanFactory.create off span_start r'.span_position) body, r')

/-- The term-collecting loop of `parse_alternative`. -/
def parse_term_list : Nat → State → Nat → Reader → Except String (TermList × Reader)
  | 0, _, _, _ => .error "fuel"
  | fuel + 1, ctx, off, r =>
    match parse_term fuel ctx off r with
    | .error e => .error e
    | .ok (some t, r1) =>
      match parse_term_list fuel ctx off r1 with
      | .error e => .error e
      | .ok (rest, r2) => .ok (.cons t rest, r2)
    | .ok (none, r1) => .ok (.nil, r1)

/-- `Term`, mode-forked between the unicode grammar and Annex B. -/
def parse_term : Nat → State → Nat → Reader → Except String (Option Term × Reader)
  | 0, _, _, _ => .error "fuel"
  | fuel + 1, ctx, off, r =>
    if ctx.unicode_mode then
      match parse_assertion fuel ctx off r with
      | .error e => .error e
      | .ok (some assertion, r1) => .ok (some assertion, r1)
      | .ok (none, r1) =>
        let span_start := r1.span_position
        match parse_atom fuel ctx off r1 with
        | .error e => .error e
        | .ok (atomOpt, r2) =>
          match consume_quantifier r2 with
          | .error e => .error e
          | .ok (quantOpt, r3) =>
            match atomOpt, quantOpt with
            | some atom, some ((mn, mx), greedy) =>
              .ok (some (.quantifier (SpanFactory.create off span_start r3.span_position)
                          mn mx greedy atom), r3)
            | some atom, none => .ok (some atom, r3)
            | none, some _ => .error "Lone `Quantifier`, expected `Atom`"
            | none, none => .ok (none, r3)
    else
      let span_start := r.span_position
      match parse_assertion fuel ctx off r with
      | .error e => .error e
      | .ok (some assertion, r1) =>
        match assertion with
        | .lookAroundAssertion sp kind body =>
          if kind = .lookahead ∨ kind = .negativeLookahead then
            match consume_quantifier r1 with
            | .error e => .error e
            | .ok (some ((mn, mx), greedy), r2) =>
              .ok (some (.quantifier (SpanFactory.create off span_start r2.span_position)
                          mn mx greedy (.lookAroundAssertion sp kind body)), r2)
            | .ok (none, r2) => .ok (some (.lookAroundAssertion sp kind body), r2)
          else .ok (some (.lookAroundAssertion sp kind body), r1)
        | other => .ok (some other, r1)
      | .ok (none, r1) =>
        match parse_extended_atom fuel ctx off r1 with
        | .error e => .error e
        | .ok (atomOpt, r2) =>
          match consume_quantifier r2 with
          | .error e => .error e
          | .ok (quantOpt, r3) =>
            match atomOpt, quantOpt with
            | some extended_atom, some ((mn, mx), greedy) =>
              .ok (some (.quantifier (SpanFactory.create off span_start r3.span_position)
                          mn mx greedy extended_atom), r3)
            | some extended_atom, none => .ok (some extended_atom, r3)
            | none, some _ => .error "Lone `Quantifier`, expected `ExtendedAtom`"
            | none, none => .ok (none, r3)

/-- `Assertion`: `^ $ \b \B` and the four lookaround forms. -/
def parse_assertion : Nat → State → Nat → Reader → Except String (Option Term × Reader)
  | 0, _, _, _ => .error "fuel"
  | fuel + 1, ctx, off, r =>
    let span_start := r.span_position
    let boundary : Option (BoundaryAssertionKind × Reader) :=
      match r.eat 94 with
      | (true, r1) => some (.start, r1)
      | (false, _) =>
      match r.eat 36 with
      | (true, r1) => some (.end_, r1)
      | (false, _) =>
      match r.eat2 92 98 with
      | (true, r1) => some (.boundary, r1)
      | (false, _) =>
      match r.eat2 92 66 with
      | (true, r1) => some (.negativeBoundary, r1)
      | (false, _) => none
    match boundary with
    | some (kind, r1) =>
      .ok (some (.boundaryAssertion (SpanFactory.create off span_start r1.span_position) kind), r1)
    | none =>
      let look : Option (LookAroundAssertionKind × Reader) :=
        match r.eat3 40 63 61 with
        | (true, r1) => some (.lookahead, r1)
        | (false, _) =>
        match r.eat3 40 63 33 with
        | (true, r1) => some (.negativeLookahead, r1)
        | (false, _) =>
        match r.eat4 40 63 60 61 with
        | (true, r1) => some (.lookbehind, r1)
        | (false, _) =>
        match r.eat4 40 63 60 33 with
        | (true, r1) => some (.negativeLookbehind, r1)
        | (false, _) => none
      match look with
      | some (kind, r1) =>
        match parse_disjunction fuel ctx off r1 with
        | .error e => .error e
        | .ok (disjunction, r2) =>
          match r2.eat 41 with
          | (true, r3) =>
            .ok (some (.lookAroundAssertion
                        (SpanFactory.create off span_start r3.span_position) kind disjunction), r3)
          | (false, _) => .error "Unterminated lookaround assertion"
      | none => .ok (none, r)

/-- `Atom` (unicode-mode grammar). -/
def parse_atom : Nat → State → Nat → Reader → Except String (Option Term × Reader)
  | 0, _, _, _ => .error "fuel"
  | fuel + 1, ctx, off, r =>
    let span_start := r.span_position
    match (match r.peek with
           | some cp => if ¬is_syntax_character cp then some cp else none
           | none => none) with
    | some cp =>
      .ok (some (.character ⟨SpanFactory.create off span_start r.advance.span_position,
                             .symbol, cp⟩), r.advance)
    | none =>
    match r.eat 46 with
    | (true, r1) =>
      .ok (some (.dot (SpanFactory.create off span_start r1.span_position)), r1)
    | (false, _) =>
    match r.eat 92 with
    | (true, r1) =>
      (match parse_atom_escape ctx off span_start r1 with
       | .error e => .error e
       | .ok (some atom_escape, r2) => .ok (some atom_escape, r2)
       | .ok (none, r2) => parse_atom_rest fuel ctx off span_start r2)
    | (false, r1) => parse_atom_rest fuel ctx off span_start r1

/-- The character-class/group tail of `parse_atom`. -/
def parse_atom_rest : Nat → State → Nat → Nat → Reader → Except String (Option Term × Reader)
  | 0, _, _, _, _ => .error "fuel"
  | fuel + 1, ctx, off, _span_start, r =>
    match parse_character_class fuel ctx off r with
    | .error e => .error e
    | .ok (some character_class, r1) => .ok (some (.characterClass character_class), r1)
    | .ok (none, r1) =>
    match parse_ignore_group fuel ctx off r1 with
    | .error e => .error e
    | .ok (some ignore_group, r2) => .ok (some ignore_group, r2)
    | .ok (none, r2) =>
    match parse_capturing_group fuel ctx off r2 with
    | .error e => .error e
    | .ok (some capturing_group, r3) => .ok (some capturing_group, r3)
    | .ok (none, r3) => .ok (none, r3)

/-- `ExtendedAtom` (Annex B grammar). -/
def parse_extended_atom : Nat → State → Nat → Reader → Except String (Option Term × Reader)
  | 0, _, _, _ => .error "fuel"
  | fuel + 1, ctx, off, r =>
    let span_start := r.span_position
    match r.eat 46 with
    | (true, r1) =>
      .ok (some (.dot (SpanFactory.create off span_start r1.span_position)), r1)
    | (false, _) =>
    match r.eat 92 with
    | (true, r1) =>
      (match parse_atom_escape ctx off span_start r1 with
       | .error e => .error e
       | .ok (some atom_escape, r2) => .ok (some atom_escape, r2)
       | .ok (none, r2) =>
         if r2.peek = some 99 then
           .ok (some (.character ⟨SpanFactory.create off span_start r2.span_position,
                                  .symbol, 92⟩), r2)
         else .error "Invalid escape")
    | (false, r1) => parse_extended_atom_rest fuel ctx off span_start r1

/-- The class/group/invalid-quantifier/pattern-character tail of
`parse_extended_atom`. -/
def parse_extended_atom_rest :
    Nat → State → Nat → Nat → Reader → Except String (Option Term × Reader)
  | 0, _, _, _, _ => .error "fuel"
  | fuel + 1, ctx, off, span_start, r =>
    match parse_character_class fuel ctx off r with
    | .error e => .error e
    | .ok (some character_class, r1) => .ok (some (.characterClass character_class), r1)
    | .ok (none, r1) =>
    match parse_ignore_group fuel ctx off r1 with
    | .error e => .error e
    | .ok (some ignore_group, r2) => .ok (some ignore_group, r2)
    | .ok (none, r2) =>
    match parse_capturing_group fuel ctx off r2 with
    | .error e => .error e
    | .ok (some capturing_group, r3) => .ok (some capturing_group, r3)
    | .ok (none, r3) =>
    match consume_quantifier r3 with
    | .error e => .error e
    | .ok (some _, _) => .error "Invalid braced quantifier"
    | .ok (none, r4) =>
    match consume_extended_pattern_character r4 with
    | (some cp, r5) =>
      .ok (some (.character ⟨SpanFactory.create off span_start r5.span_position,
                             .symbol, cp⟩), r5)
    | (none, r5) => .ok (none, r5)

/-- `CharacterClass`: `[ ... ]` with an optional leading `^`. -/
def parse_character_class :
    Nat → State → Nat → Reader → Except String (Option CharacterClass × Reader)
  | 0, _, _, _ => .error "fuel"
  | fuel + 1, ctx, off, r =>
    let span_start := r.span_position
    match r.eat 91 with
    | (true, r1) =>
      let (negative, r2) := r1.eat 94
      match parse_class_contents fuel ctx off r2 with
      | .error e => .error e
      | .ok ((kind, body), r3) =>
        match r3.eat 93 with
        | (true, r4) =>
          .ok (some ⟨SpanFactory.create off span_start r4.span_position,
                     negative, kind, body⟩, r4)
        | (false, _) => .error "Unterminated character class"
    | (false, r1) => .ok (none, r1)

/-- `ClassContents`: empty, the unimplemented unicode-sets
`ClassSetExpression`, or the legacy `NonemptyClassRanges`. -/
def parse_class_contents :
    Nat → State → Nat → Reader →
    Except String ((CharacterClassContentsKind × List CharacterClassContents) × Reader)
  | 0, _, _, _ => .error "fuel"
  | fuel + 1, ctx, off, r =>
    if r.peek = some 93 then .ok ((.union, []), r)
    else if ctx.unicode_sets_mode then .error "TODO: ClassSetExpression"
    else
      match parse_nonempty_class_ranges fuel ctx off r with
      | .error e => .error e
      | .ok (some nonempty_class_ranges, r1) => .ok ((.union, nonempty_class_ranges), r1)
      | .ok (none, _) => .error "Empty class ranges"

/-- `NonemptyClassRanges`: a class atom, optionally `- ClassAtom` forming a
range (checked for order) or degrading to three literal tokens in Annex B
mode, followed by further class contents. -/
def parse_nonempty_class_ranges :
    Nat → State → Nat → Reader →
    Except String (Option (List CharacterClassContents) × Reader)
  | 0, _, _, _ => .error "fuel"
  | fuel + 1, ctx, off, r =>
    match parse_class_atom ctx off r with
    | .error e => .error e
    | .ok (none, _) => .error "Empty class atom"
    | .ok (some class_atom, r1) =>
      if r1.peek = some 93 then .ok (some [class_atom], r1)
      else if (r1.peek == some 45) &&
          (match r1.peek2 with | some cp => cp != 93 | none => false) then
        let span_start := r1.span_position
        let r2 := r1.advance
        let dash : CharacterClassContents :=
          .character ⟨SpanFactory.create off span_start r2.span_position, .symbol, 45⟩
        match parse_class_atom ctx off r2 with
        | .error e => .error e
        | .ok (none, _) => .error "Missing class atom pair"
        | .ok (some class_atom_to, r3) =>
          match class_atom, class_atom_to with
          | .character from_, .character to_ =>
            if to_.value < from_.value then .error "Character class range out of order"
            else
              match parse_class_contents fuel ctx off r3 with
              | .error e => .error e
              | .ok ((_, class_contents), r4) =>
                .ok (some (.characterClassRange ⟨from_.span.merge to_.span, from_, to_⟩ ::
                           class_contents), r4)
          | a1, a2 =>
            if ctx.unicode_mode then .error "Invalid character class range"
            else
              match parse_class_contents fuel ctx off r3 with
              | .error e => .error e
              | .ok ((_, class_contents), r4) =>
                .ok (some (a1 :: dash :: a2 :: class_contents), r4)
      else
        match parse_nonempty_class_ranges fuel ctx off r1 with
        | .error e => .error e
        | .ok (none, _) => .error "Missing class ranges"
        | .ok (some class_ranges, r2) => .ok (some (class_atom :: class_ranges), r2)

/-- `( GroupSpecifier_opt Disjunction )`. -/
def parse_capturing_group :
    Nat → State → Nat → Reader → Except String (Option Term × Reader)
  | 0, _, _, _ => .error "fuel"
  | fuel + 1, ctx, off, r =>
    let span_start := r.span_position
    match r.eat 40 with
    | (true, r1) =>
      match r1.eat 63 with
      | (true, r2) =>
        (match consume_group_name ctx r2 with
         | .error e => .error e
         | .ok (some name, r3) =>
           (match parse_disjunction fuel ctx off r3 with
            | .error e => .error e
            | .ok (disjunction, r4) =>
              match r4.eat 41 with
              | (true, r5) =>
                .ok (some (.capturingGroup (SpanFactory.create off span_start r5.span_position)
                            (some name) disjunction), r5)
              | (false, _) => .error "Unterminated capturing group name")
         | .ok (none, _) => .error "Unterminated capturing group name")
      | (false, r2) =>
        match parse_disjunction fuel ctx off r2 with
        | .error e => .error e
        | .ok (disjunction, r3) =>
          match r3.eat 41 with
          | (true, r4) =>
            .ok (some (.capturingGroup (SpanFactory.create off span_start r4.span_position)
                        none disjunction), r4)
          | (false, _) => .error "Unterminated capturing group"
    | (false, r1) => .ok (none, r1)

/-- `(?: Disjunction )`. -/
def parse_ignore_group :
    Nat → State → Nat → Reader → Except String (Option Term × Reader)
  | 0, _, _, _ => .error "fuel"
  | fuel + 1, ctx, off, r =>
    let span_start := r.span_position
    match r.eat3 40 63 58 with
    | (true, r1) =>
      match parse_disjunction fuel ctx off r1 with
      | .error e => .error e
      | .ok (disjunction, r2) =>
        match r2.eat 41 with
        | (true, r3) =>
          .ok (some (.ignoreGroup (SpanFactory.create off span_start r3.span_position)
                      disjunction), r3)
        | (false, _) => .error "Unterminated ignore group"
    | (false, r1) => .ok (none, r1)

end

/-- `PatternParser::parse`: the reader is built in `PatternParser::new`
from the ORIGINAL source text; `parse` then rewrites an empty
`source_text` field to `(?:)` (which only affects the pattern span's
byte length, since the already-built reader still holds the original
text), parses a top-level disjunction and requires the reader to be
fully consumed. -/
def parse (fuel : Nat) (source_text : List Nat) (options : ParserOptions) :
    Except String Pattern :=
  let reader : Reader := ⟨source_text, 0⟩
  let source_text := if source_text.isEmpty then cps "(?:)" else source_text
  let ctx : State := ⟨options.unicode_flag || options.unicode_sets_flag,
                      options.unicode_sets_flag⟩
  match parse_disjunction fuel ctx options.span_offset reader with
  | .error e => .error e
  | .ok (result, r') =>
    match r'.peek with
    | some _ => .error "Could not parse the entire pattern"
    | none =>
      .ok ⟨SpanFactory.create options.span_offset 0 (utf8Len source_text), result⟩

/-! ## Range-ordering invariant predicate (spec side) -/

def contents_ranges_ok : CharacterClassContents → Bool
  | .character _ => true
  | .characterClassRange rg => decide (rg.min.value ≤ rg.max.value)
  | .characterClassEscape _ => true
  | .unicodePropertyEscape _ => true

def class_ranges_ok (c : CharacterClass) : Bool := c.body.all contents_ranges_ok

mutual
/-- Every `CharacterClassRange` in the term satisfies `min ≤ max`. -/
def term_ranges_ok : Term → Bool
  | .boundaryAssertion _ _ => true
  | .lookAroundAssertion _ _ d => disj_ranges_ok d
  | .quantifier _ _ _ _ b => term_ranges_ok b
  | .character _ => true
  | .dot _ => true
  | .characterClassEscape _ => true
  | .unicodePropertyEscape _ => true
  | .characterClass c => class_ranges_ok c
  | .capturingGroup _ _ d => disj_ranges_ok d
  | .ignoreGroup _ d => disj_ranges_ok d
  | .indexedReference _ _ => true
  | .namedReference _ _ => true

def term_list_ranges_ok : TermList → Bool
  | .nil => true
  | .cons h t => term_ranges_ok h && term_list_ranges_ok t

def alt_ranges_ok : Alternative → Bool
  | .mk _ b => term_list_ranges_ok b

def alt_list_ranges_ok : AltList → Bool
  | .nil => true
  | .cons h t => alt_ranges_ok h && alt_list_ranges_ok t

def disj_ranges_ok : Disjunction → Bool
  | .mk _ b => alt_list_ranges_ok b
end

def pattern_ranges_ok (p : Pattern) : Bool := disj_ranges_ok p.body

/-! ## Common option values -/

/-- No flags: Annex B (non-unicode) grammar. -/
def optsB : ParserOptions := ⟨0, false, false⟩

/-- `u` flag: unicode mode. -/
def optsU : ParserOptions := ⟨0, true, false⟩

/-- `v` flag: unicode-sets mode (implies unicode mode). -/
def optsV : ParserOptions := ⟨0, false, true⟩

/-! ## Expected parse results for concrete inputs -/

/-- A pattern whose whole body is a single term. -/
def singleTermPattern (sp : Span) (t : Term) : Pattern :=
  ⟨sp, .mk sp (.cons (.mk sp (.cons t .nil)) .nil)⟩

/-- A one-character disjunction (used as a lookaround body). -/
def singleCharDisjunction (s e v : Nat) : Disjunction :=
  .mk ⟨s, e⟩ (.cons (.mk ⟨s, e⟩ (.cons (.character ⟨⟨s, e⟩, .symbol, v⟩) .nil)) .nil)

/-- Expected result of parsing `(?<!a)` in either mode. -/
def lookbehindPattern : Pattern :=
  singleTermPattern ⟨0, 6⟩
    (.lookAroundAssertion ⟨0, 6⟩ .negativeLookbehind (singleCharDisjunction 4 5 97))

/-- Expected result of parsing `(?!a)+` in Annex B mode: a quantifier
wrapping the negative lookahead. -/
def lookaheadQuantifierPattern : Pattern :=
  singleTermPattern ⟨0, 6⟩
    (.quantifier ⟨0, 6⟩ 1 none true
      (.lookAroundAssertion ⟨0, 5⟩ .negativeLookahead (singleCharDisjunction 3 4 97)))

/-- Expected result of parsing the empty pattern (and of `(?:)`). -/
def emptyIgnoreGroupPattern : Pattern :=
  singleTermPattern ⟨0, 4⟩
    (.ignoreGroup ⟨0, 4⟩ (.mk ⟨3, 3⟩ (.cons (.mk ⟨3, 3⟩ .nil) .nil)))

/-- Actual result of parsing the empty source text: the reader was built
from the original (empty) text before the `(?:)` rewrite, so the body is
a single empty alternative at position 0; only the pattern span's end
uses the rewritten text's byte length 4. -/
def emptySourcePattern : Pattern :=
  ⟨⟨0, 4⟩, .mk ⟨0, 0⟩ (.cons (.mk ⟨0, 0⟩ .nil) .nil)⟩

/-- Expected result of parsing `[a-z]` (either mode): one class with one
range from `a` (97) to `z` (122). -/
def azRangePattern : Pattern :=
  singleTermPattern ⟨0, 5⟩
    (.characterClass ⟨⟨0, 5⟩, false, .union,
      [.characterClassRange ⟨⟨1, 4⟩, ⟨⟨1, 2⟩, .symbol, 97⟩, ⟨⟨3, 4⟩, .symbol, 122⟩⟩]⟩)

/-- Expected result of parsing `a{1,2}`. -/
def aOneTwoPattern : Pattern :=
  singleTermPattern ⟨0, 6⟩
    (.quantifier ⟨0, 6⟩ 1 (some 2) true (.character ⟨⟨0, 1⟩, .symbol, 97⟩))

/-- Expected result of parsing `\P\x7bBasic_Emoji\x7d` with the `v` flag. -/
def basicEmojiPattern : Pattern :=
  singleTermPattern ⟨0, 15⟩
    (.unicodePropertyEscape ⟨⟨0, 15⟩, false, true, cps "Basic_Emoji", none⟩)

/-! ## Claim theorems -/

/-- Claim C1 (code bug): the pattern `\0` (backslash, digit zero, nothing
following) does NOT parse as a `Character` of kind `Null`; in every mode
the parse fails with "Invalid atom escape", because `consume_decimal_digits`
consumes the `0` and `consume_decimal_escape` does not rewind it when
rejecting the zero index, so `parse_character_escape` never sees the `0`.
This contradicts the spec sentence "`\0` must parse as a null-character
escape" (and the source's own comment "\0 is CharacterEscape, not
DecimalEscape"); the theorem records what the code actually does. -/
theorem backslash_zero_is_rejected :
    parse 30 (cps "\\0") optsB = .error "Invalid atom escape" ∧
    parse 30 (cps "\\0") optsU = .error "Invalid atom escape" ∧
    parse 30 (cps "\\0") optsV = .error "Invalid atom escape" := by
  refine ⟨?_, ?_, ?_⟩ <;>
  simp [parse, parse_disjunction, parse_disjunction_list, parse_alternative,
      parse_term_list, parse_term, parse_assertion, parse_atom, parse_atom_rest,
      parse_extended_atom, parse_extended_atom_rest, parse_character_class,
      parse_class_contents, parse_nonempty_class_ranges, parse_capturing_group,
      parse_ignore_group, parse_atom_escape, parse_character_escape,
      parse_character_class_escape, parse_character_class_escape_unicode,
      parse_character_class_escape_unicode_body, parse_class_atom,
      parse_class_atom_no_dash, parse_class_atom_no_dash_escape, parse_class_escape,
      consume_decimal_escape, consume_decimal_digits, digitsVal, hexDigitsVal,
      consume_quantifier, consume_reg_exp_unicode_escape_sequence,
      consume_fixed_hex_digits, consume_hex_digits,
      consume_legacy_octal_escape_sequence, consume_octal_digit,
      consume_identity_escape, consume_extended_pattern_character, consume_group_name,
      consume_unicode_property_value_expression, consume_unicode_property_name,
      consume_unicode_property_value, is_valid_unicode_property,
      is_valid_lone_unicode_property, is_valid_lone_unicode_property_of_strings,
      property_name_value_table, lone_property_table, lone_property_of_strings_table,
      Reader.eat, Reader.eat2, Reader.eat3, Reader.eat4, Reader.peek, Reader.peek2,
      Reader.advance, Reader.advanceBy, Reader.rest, Reader.span_position, cps,
      optsB, optsU, optsV, map_control_escape, map_c_ascii_letter, is_decimal_digit,
      is_syntax_character, map_hex_digit, is_ascii_letter, u16Len, u8Len, utf8Len,
      SpanFactory.create, Span.merge, hex_val, is_lead_surrogate, is_trail_surrogate,
      is_octal_digit, is_valid_unicode, combine_surrogate_pair,
      is_unicode_property_name_character, is_unicode_property_value_character,
      is_identifier_start_char, is_identifier_part_char, singleTermPattern,
      singleCharDisjunction, lookbehindPattern, lookaheadQuantifierPattern,
      emptyIgnoreGroupPattern, azRangePattern, aOneTwoPattern, basicEmojiPattern]

/-- Claim C2 (code bug): in Annex B mode, a backslash followed by `c` and
a non-letter (or end of input) does NOT produce a literal-backslash
`Character`: `parse_atom_escape` never returns an `Ok(None)` (every
fall-through path ends in the hard "Invalid atom escape" error), so the
`\ [lookahead = c]` fallback inside `parse_extended_atom` is unreachable
and the parse fails.  The theorem evaluates both `parse_extended_atom`
itself and the whole parse at the failing inputs `\c@` and `\c`. -/
theorem backslash_c_nonletter_is_rejected :
    parse_extended_atom 30 ⟨false, false⟩ 0 ⟨cps "\\c@", 0⟩ = .error "Invalid atom escape" ∧
    parse 30 (cps "\\c@") optsB = .error "Invalid atom escape" ∧
    parse 30 (cps "\\c") optsB = .error "Invalid atom escape" := by
  refine ⟨?_, ?_, ?_⟩ <;>
  simp [parse, parse_disjunction, parse_disjunction_list, parse_alternative,
      parse_term_list, parse_term, parse_assertion, parse_atom, parse_atom_rest,
      parse_extended_atom, parse_extended_atom_rest, parse_character_class,
      parse_class_contents, parse_nonempty_class_ranges, parse_capturing_group,
      parse_ignore_group, parse_atom_escape, parse_character_escape,
      parse_character_class_escape, parse_character_class_escape_unicode,
      parse_character_class_escape_unicode_body, parse_class_atom,
      parse_class_atom_no_dash, parse_class_atom_no_dash_escape, parse_class_escape,
      consume_decimal_escape, consume_decimal_digits, digitsVal, hexDigitsVal,
      consume_quantifier, consume_reg_exp_unicode_escape_sequence,
      consume_fixed_hex_digits, consume_hex_digits,
      consume_legacy_octal_escape_sequence, consume_octal_digit,
      consume_identity_escape, consume_extended_pattern_character, consume_group_name,
      consume_unicode_property_value_expression, consume_unicode_property_name,
      consume_unicode_property_value, is_valid_unicode_property,
      is_valid_lone_unicode_property, is_valid_lone_unicode_property_of_strings,
      property_name_value_table, lone_property_table, lone_property_of_strings_table,
      Reader.eat, Reader.eat2, Reader.eat3, Reader.eat4, Reader.peek, Reader.peek2,
      Reader.advance, Reader.advanceBy, Reader.rest, Reader.span_position, cps,
      optsB, optsU, optsV, map_control_escape, map_c_ascii_letter, is_decimal_digit,
      is_syntax_character, map_hex_digit, is_ascii_letter, u16Len, u8Len, utf8Len,
      SpanFactory.create, Span.merge, hex_val, is_lead_surrogate, is_trail_surrogate,
      is_octal_digit, is_valid_unicode, combine_surrogate_pair,
      is_unicode_property_name_character, is_unicode_property_value_character,
      is_identifier_start_char, is_identifier_part_char, singleTermPattern,
      singleCharDisjunction, lookbehindPattern, lookaheadQuantifierPattern,
      emptyIgnoreGroupPattern, azRangePattern, aOneTwoPattern, basicEmojiPattern]

/-- Claim C6: in unicode mode, the pattern `\ud83d\ude00` (a hex
lead-surrogate escape immediately followed by a hex trail-surrogate
escape) parses to a single `Character` term of kind `UnicodeEscape` whose
value is the combined scalar 0x1F600 = 128512, which equals the
surrogate-pair combination of 0xD83D = 55357 and 0xDE00 = 56832 — not two
separate terms. -/
theorem surrogate_pair_combination :
    parse 30 (cps "\\ud83d\\ude00") optsU =
      .ok (singleTermPattern ⟨0, 12⟩ (.character ⟨⟨0, 12⟩, .unicodeEscape, 128512⟩)) ∧
    combine_surrogate_pair 55357 56832 = 128512 := by
  refine ⟨?_, rfl⟩
  simp [parse, parse_disjunction, parse_disjunction_list, parse_alternative,
      parse_term_list, parse_term, parse_assertion, parse_atom, parse_atom_rest,
      parse_extended_atom, parse_extended_atom_rest, parse_character_class,
      parse_class_contents, parse_nonempty_class_ranges, parse_capturing_group,
      parse_ignore_group, parse_atom_escape, parse_character_escape,
      parse_character_class_escape, parse_character_class_escape_unicode,
      parse_character_class_escape_unicode_body, parse_class_atom,
      parse_class_atom_no_dash, parse_class_atom_no_dash_escape, parse_class_escape,
      consume_decimal_escape, consume_decimal_digits, digitsVal, hexDigitsVal,
      consume_quantifier, consume_reg_exp_unicode_escape_sequence,
      consume_fixed_hex_digits, consume_hex_digits,
      consume_legacy_octal_escape_sequence, consume_octal_digit,
      consume_identity_escape, consume_extended_pattern_character, consume_group_name,
      consume_unicode_property_value_expression, consume_unicode_property_name,
      consume_unicode_property_value, is_valid_unicode_property,
      is_valid_lone_unicode_property, is_valid_lone_unicode_property_of_strings,
      property_name_value_table, lone_property_table, lone_property_of_strings_table,
      Reader.eat, Reader.eat2, Reader.eat3, Reader.eat4, Reader.peek, Reader.peek2,
      Reader.advance, Reader.advanceBy, Reader.rest, Reader.span_position, cps,
      optsB, optsU, optsV, map_control_escape, map_c_ascii_letter, is_decimal_digit,
      is_syntax_character, map_hex_digit, is_ascii_letter, u16Len, u8Len, utf8Len,
      SpanFactory.create, Span.merge, hex_val, is_lead_surrogate, is_trail_surrogate,
      is_octal_digit, is_valid_unicode, combine_surrogate_pair,
      is_unicode_property_name_character, is_unicode_property_value_character,
      is_identifier_start_char, is_identifier_part_char, singleTermPattern,
      singleCharDisjunction, lookbehindPattern, lookaheadQuantifierPattern,
      emptyIgnoreGroupPattern, azRangePattern, aOneTwoPattern, basicEmojiPattern]

/-- Claim C7: `a**` fails in both modes; `(?<!a)` parses in both modes;
`(?<!a)+` fails in both modes (lookbehind is never quantifiable);
`(?!a)+` succeeds in Annex B mode as a quantifier wrapping the negative
lookahead, and fails in unicode mode. -/
theorem mode_gated_legality :
    parse 30 (cps "a**") optsB = .error "Invalid braced quantifier" ∧
    parse 30 (cps "a**") optsU = .error "Lone `Quantifier`, expected `Atom`" ∧
    parse 30 (cps "(?<!a)") optsB = .ok lookbehindPattern ∧
    parse 30 (cps "(?<!a)") optsU = .ok lookbehindPattern ∧
    parse 30 (cps "(?<!a)+") optsB = .error "Invalid braced quantifier" ∧
    parse 30 (cps "(?<!a)+") optsU = .error "Lone `Quantifier`, expected `Atom`" ∧
    parse 30 (cps "(?!a)+") optsB = .ok lookaheadQuantifierPattern ∧
    parse 30 (cps "(?!a)+") optsU = .error "Lone `Quantifier`, expected `Atom`" := by
  refine ⟨?_, ?_, ?_, ?_, ?_, ?_, ?_, ?_⟩ <;>
  simp [parse, parse_disjunction, parse_disjunction_list, parse_alternative,
      parse_term_list, parse_term, parse_assertion, parse_atom, parse_atom_rest,
      parse_extended_atom, parse_extended_atom_rest, parse_character_class,
      parse_class_contents, parse_nonempty_class_ranges, parse_capturing_group,
      parse_ignore_group, parse_atom_escape, parse_character_escape,
      parse_character_class_escape, parse_character_class_escape_unicode,
      parse_character_class_escape_unicode_body, parse_class_atom,
      parse_class_atom_no_dash, parse_class_atom_no_dash_escape, parse_class_escape,
      consume_decimal_escape, consume_decimal_digits, digitsVal, hexDigitsVal,
      consume_quantifier, consume_reg_exp_unicode_escape_sequence,
      consume_fixed_hex_digits, consume_hex_digits,
      consume_legacy_octal_escape_sequence, consume_octal_digit,
      consume_identity_escape, consume_extended_pattern_character, consume_group_name,
      consume_unicode_property_value_expression, consume_unicode_property_name,
      consume_unicode_property_value, is_valid_unicode_property,
      is_valid_lone_unicode_property, is_valid_lone_unicode_property_of_strings,
      property_name_value_table, lone_property_table, lone_property_of_strings_table,
      Reader.eat, Reader.eat2, Reader.eat3, Reader.eat4, Reader.peek, Reader.peek2,
      Reader.advance, Reader.advanceBy, Reader.rest, Reader.span_position, cps,
      optsB, optsU, optsV, map_control_escape, map_c_ascii_letter, is_decimal_digit,
      is_syntax_character, map_hex_digit, is_ascii_letter, u16Len, u8Len, utf8Len,
      SpanFactory.create, Span.merge, hex_val, is_lead_surrogate, is_trail_surrogate,
      is_octal_digit, is_valid_unicode, combine_surrogate_pair,
      is_unicode_property_name_character, is_unicode_property_value_character,
      is_identifier_start_char, is_identifier_part_char, singleTermPattern,
      singleCharDisjunction, lookbehindPattern, lookaheadQuantifierPattern,
      emptyIgnoreGroupPattern, azRangePattern, aOneTwoPattern, basicEmojiPattern]

/-- Claim C8 (code bug): parsing the empty source text does NOT yield the
same tree as parsing `(?:)`.  The reader is constructed from the original
empty text before `parse` rewrites the `source_text` field to `(?:)`, so
the parse succeeds but returns a single empty alternative (spans (0,0))
with no non-capturing group node, while `(?:)` yields the IgnoreGroup
tree; the two results are provably different. -/
theorem empty_pattern_not_rewritten :
    parse 30 [] optsB = .ok emptySourcePattern ∧
    parse 30 (cps "(?:)") optsB = .ok emptyIgnoreGroupPattern ∧
    parse 30 [] optsB ≠ parse 30 (cps "(?:)") optsB := by
  have h1 : parse 30 [] optsB = .ok emptySourcePattern := by
    simp [parse, parse_disjunction, parse_disjunction_list, parse_alternative,
      parse_term_list, parse_term, parse_assertion, parse_atom, parse_atom_rest,
      parse_extended_atom, parse_extended_atom_rest, parse_character_class,
      parse_class_contents, parse_nonempty_class_ranges, parse_capturing_group,
      parse_ignore_group, parse_atom_escape, parse_character_escape,
      parse_character_class_escape, parse_character_class_escape_unicode,
      parse_character_class_escape_unicode_body, parse_class_atom,
      parse_class_atom_no_dash, parse_class_atom_no_dash_escape, parse_class_escape,
      consume_decimal_escape, consume_decimal_digits, digitsVal, hexDigitsVal,
      consume_quantifier, consume_reg_exp_unicode_escape_sequence,
      consume_fixed_hex_digits, consume_hex_digits,
      consume_legacy_octal_escape_sequence, consume_octal_digit,
      consume_identity_escape, consume_extended_pattern_character, consume_group_name,
      consume_unicode_property_value_expression, consume_unicode_property_name,
      consume_unicode_property_value, is_valid_unicode_property,
      is_valid_lone_unicode_property, is_valid_lone_unicode_property_of_strings,
      property_name_value_table, lone_property_table, lone_property_of_strings_table,
      Reader.eat, Reader.eat2, Reader.eat3, Reader.eat4, Reader.peek, Reader.peek2,
      Reader.advance, Reader.advanceBy, Reader.rest, Reader.span_position, cps,
      optsB, optsU, optsV, map_control_escape, map_c_ascii_letter, is_decimal_digit,
      is_syntax_character, map_hex_digit, is_ascii_letter, u16Len, u8Len, utf8Len,
      SpanFactory.create, Span.merge, hex_val, is_lead_surrogate, is_trail_surrogate,
      is_octal_digit, is_valid_unicode, combine_surrogate_pair,
      is_unicode_property_name_character, is_unicode_property_value_character,
      is_identifier_start_char, is_identifier_part_char, singleTermPattern,
      singleCharDisjunction, lookbehindPattern, lookaheadQuantifierPattern,
      emptyIgnoreGroupPattern, azRangePattern, aOneTwoPattern, basicEmojiPattern, emptySourcePattern]
  have h2 : parse 30 (cps "(?:)") optsB = .ok emptyIgnoreGroupPattern := by
    simp [parse, parse_disjunction, parse_disjunction_list, parse_alternative,
      parse_term_list, parse_term, parse_assertion, parse_atom, parse_atom_rest,
      parse_extended_atom, parse_extended_atom_rest, parse_character_class,
      parse_class_contents, parse_nonempty_class_ranges, parse_capturing_group,
      parse_ignore_group, parse_atom_escape, parse_character_escape,
      parse_character_class_escape, parse_character_class_escape_unicode,
      parse_character_class_escape_unicode_body, parse_class_atom,
      parse_class_atom_no_dash, parse_class_atom_no_dash_escape, parse_class_escape,
      consume_decimal_escape, consume_decimal_digits, digitsVal, hexDigitsVal,
      consume_quantifier, consume_reg_exp_unicode_escape_sequence,
      consume_fixed_hex_digits, consume_hex_digits,
      consume_legacy_octal_escape_sequence, consume_octal_digit,
      consume_identity_escape, consume_extended_pattern_character, consume_group_name,
      consume_unicode_property_value_expression, consume_unicode_property_name,
      consume_unicode_property_value, is_valid_unicode_property,
      is_valid_lone_unicode_property, is_valid_lone_unicode_property_of_strings,
      property_name_value_table, lone_property_table, lone_property_of_strings_table,
      Reader.eat, Reader.eat2, Reader.eat3, Reader.eat4, Reader.peek, Reader.peek2,
      Reader.advance, Reader.advanceBy, Reader.rest, Reader.span_position, cps,
      optsB, optsU, optsV, map_control_escape, map_c_ascii_letter, is_decimal_digit,
      is_syntax_character, map_hex_digit, is_ascii_letter, u16Len, u8Len, utf8Len,
      SpanFactory.create, Span.merge, hex_val, is_lead_surrogate, is_trail_surrogate,
      is_octal_digit, is_valid_unicode, combine_surrogate_pair,
      is_unicode_property_name_character, is_unicode_property_value_character,
      is_identifier_start_char, is_identifier_part_char, singleTermPattern,
      singleCharDisjunction, lookbehindPattern, lookaheadQuantifierPattern,
      emptyIgnoreGroupPattern, azRangePattern, aOneTwoPattern, basicEmojiPattern]
  refine ⟨h1, h2, ?_⟩
  rw [h1, h2]
  simp [emptySourcePattern, emptyIgnoreGroupPattern, singleTermPattern]

/-! ## List helper lemmas -/

theorem takeWhile_append_all (p : Nat → Bool) (l : List Nat) (b : Nat) (t : List Nat)
    (hl : ∀ a ∈ l, p a = true) (hb : p b = false) :
    (l ++ b :: t).takeWhile p = l := by
  induction l with
  | nil => simp [List.takeWhile_cons, hb]
  | cons a l ih =>
    simp only [List.cons_append, List.takeWhile_cons, hl a (by simp)]
    simpa using ih fun x hx => hl x (by simp [hx])

theorem getElem?_append_cons_self (l t : List Nat) (b : Nat) :
    (l ++ b :: t)[l.length]? = some b := by
  induction l with
  | nil => simp
  | cons a l ih => simpa using ih

theorem getElem?_append_cons_succ (l t : List Nat) (b : Nat) (k : Nat) :
    (l ++ b :: t)[l.length + 1 + k]? = t[k]? := by
  induction l with
  | nil =>
    simp only [List.nil_append, List.length_nil, Nat.zero_add, Nat.add_comm 1 k]
    simp
  | cons a l ih =>
    rw [List.cons_append, List.length_cons,
      show l.length + 1 + 1 + k = (l.length + 1 + k) + 1 from by omega,
      List.getElem?_cons_succ]
    exact ih

theorem drop_one_cons (a : Nat) (l : List Nat) : (a :: l).drop 1 = l := rfl

theorem drop_append_cons (l t : List Nat) (b : Nat) :
    (l ++ b :: t).drop (l.length + 1) = t := by
  induction l with
  | nil => simp
  | cons a l ih =>
    rw [List.cons_append, List.length_cons, List.drop_succ_cons]
    exact ih

/-! ## Claim C9 and C10 theorems -/

/-- Claim C9: whenever unicode-sets mode is on and the class contents are
non-empty (the next code point is not `]`, including end of input),
`parse_class_contents` fails with the explicit not-supported error for
`ClassSetExpression` and never reaches the legacy `NonemptyClassRanges`
grammar; concretely, parsing `[a]` with the `v` flag fails that way. -/
theorem class_set_expression_unsupported :
    (∀ (fuel : Nat) (ctx : State) (off : Nat) (r : Reader),
      ctx.unicode_sets_mode = true → r.peek ≠ some 93 →
      parse_class_contents (fuel + 1) ctx off r = .error "TODO: ClassSetExpression") ∧
    parse 30 (cps "[a]") optsV = .error "TODO: ClassSetExpression" := by
  constructor
  · intro fuel ctx off r h1 h2
    simp [parse_class_contents, h1, h2]
  · simp [parse, parse_disjunction, parse_disjunction_list, parse_alternative,
      parse_term_list, parse_term, parse_assertion, parse_atom, parse_atom_rest,
      parse_extended_atom, parse_extended_atom_rest, parse_character_class,
      parse_class_contents, parse_nonempty_class_ranges, parse_capturing_group,
      parse_ignore_group, parse_atom_escape, parse_character_escape,
      parse_character_class_escape, parse_character_class_escape_unicode,
      parse_character_class_escape_unicode_body, parse_class_atom,
      parse_class_atom_no_dash, parse_class_atom_no_dash_escape, parse_class_escape,
      consume_decimal_escape, consume_decimal_digits, digitsVal, hexDigitsVal,
      consume_quantifier, consume_reg_exp_unicode_escape_sequence,
      consume_fixed_hex_digits, consume_hex_digits,
      consume_legacy_octal_escape_sequence, consume_octal_digit,
      consume_identity_escape, consume_extended_pattern_character, consume_group_name,
      consume_unicode_property_value_expression, consume_unicode_property_name,
      consume_unicode_property_value, is_valid_unicode_property,
      is_valid_lone_unicode_property, is_valid_lone_unicode_property_of_strings,
      property_name_value_table, lone_property_table, lone_property_of_strings_table,
      Reader.eat, Reader.eat2, Reader.eat3, Reader.eat4, Reader.peek, Reader.peek2,
      Reader.advance, Reader.advanceBy, Reader.rest, Reader.span_position, cps,
      optsB, optsU, optsV, map_control_escape, map_c_ascii_letter, is_decimal_digit,
      is_syntax_character, map_hex_digit, is_ascii_letter, u16Len, u8Len, utf8Len,
      SpanFactory.create, Span.merge, hex_val, is_lead_surrogate, is_trail_surrogate,
      is_octal_digit, is_valid_unicode, combine_surrogate_pair,
      is_unicode_property_name_character, is_unicode_property_value_character,
      is_identifier_start_char, is_identifier_part_char, singleTermPattern,
      singleCharDisjunction, lookbehindPattern, lookaheadQuantifierPattern,
      emptyIgnoreGroupPattern, azRangePattern, aOneTwoPattern, basicEmojiPattern]

/-- Witness for C9: the general statement applied at unicode-sets mode and
the class body `a]`. -/
theorem class_set_expression_unsupported_witness :
    parse_class_contents 1 ⟨true, true⟩ 0 ⟨cps "a]", 0⟩ = .error "TODO: ClassSetExpression" :=
  class_set_expression_unsupported.1 0 ⟨true, true⟩ 0 ⟨cps "a]", 0⟩ rfl (by decide)

/-- Claim C10: `parse` succeeds only when the whole source is consumed:
if the top-level disjunction succeeds with at least one code point left,
`parse` returns the "Could not parse the entire pattern" error; conversely
a successful `parse` means the disjunction succeeded with the reader fully
consumed; concretely `a)` fails that way. -/
theorem entire_pattern_must_be_consumed :
    (∀ (fuel : Nat) (src : List Nat) (opts : ParserOptions) (d : Disjunction) (r' : Reader),
      parse_disjunction fuel
          ⟨opts.unicode_flag || opts.unicode_sets_flag, opts.unicode_sets_flag⟩
          opts.span_offset ⟨src, 0⟩ = .ok (d, r') →
      r'.peek.isSome = true →
      parse fuel src opts = .error "Could not parse the entire pattern") ∧
    (∀ (fuel : Nat) (src : List Nat) (opts : ParserOptions) (p : Pattern),
      parse fuel src opts = .ok p →
      ∃ d r', parse_disjunction fuel
          ⟨opts.unicode_flag || opts.unicode_sets_flag, opts.unicode_sets_flag⟩
          opts.span_offset ⟨src, 0⟩ = .ok (d, r') ∧
        r'.peek = none) ∧
    parse 30 (cps "a)") optsB = .error "Could not parse the entire pattern" := by
  refine ⟨?_, ?_, ?_⟩
  · intro fuel src opts d r' h hp
    simp only [parse]
    rw [h]
    obtain ⟨cp, hcp⟩ := Option.isSome_iff_exists.mp hp
    simp [hcp]
  · intro fuel src opts p h
    simp only [parse] at h
    split at h
    · exact absurd h (by simp)
    · rename_i d r' heq
      split at h
      · exact absurd h (by simp)
      · rename_i hnone
        exact ⟨d, r', heq, hnone⟩
  · simp [parse, parse_disjunction, parse_disjunction_list, parse_alternative,
      parse_term_list, parse_term, parse_assertion, parse_atom, parse_atom_rest,
      parse_extended_atom, parse_extended_atom_rest, parse_character_class,
      parse_class_contents, parse_nonempty_class_ranges, parse_capturing_group,
      parse_ignore_group, parse_atom_escape, parse_character_escape,
      parse_character_class_escape, parse_character_class_escape_unicode,
      parse_character_class_escape_unicode_body, parse_class_atom,
      parse_class_atom_no_dash, parse_class_atom_no_dash_escape, parse_class_escape,
      consume_decimal_escape, consume_decimal_digits, digitsVal, hexDigitsVal,
      consume_quantifier, consume_reg_exp_unicode_escape_sequence,
      consume_fixed_hex_digits, consume_hex_digits,
      consume_legacy_octal_escape_sequence, consume_octal_digit,
      consume_identity_escape, consume_extended_pattern_character, consume_group_name,
      consume_unicode_property_value_expression, consume_unicode_property_name,
      consume_unicode_property_value, is_valid_unicode_property,
      is_valid_lone_unicode_property, is_valid_lone_unicode_property_of_strings,
      property_name_value_table, lone_property_table, lone_property_of_strings_table,
      Reader.eat, Reader.eat2, Reader.eat3, Reader.eat4, Reader.peek, Reader.peek2,
      Reader.advance, Reader.advanceBy, Reader.rest, Reader.span_position, cps,
      optsB, optsU, optsV, map_control_escape, map_c_ascii_letter, is_decimal_digit,
      is_syntax_character, map_hex_digit, is_ascii_letter, u16Len, u8Len, utf8Len,
      SpanFactory.create, Span.merge, hex_val, is_lead_surrogate, is_trail_surrogate,
      is_octal_digit, is_valid_unicode, combine_surrogate_pair,
      is_unicode_property_name_character, is_unicode_property_value_character,
      is_identifier_start_char, is_identifier_part_char, singleTermPattern,
      singleCharDisjunction, lookbehindPattern, lookaheadQuantifierPattern,
      emptyIgnoreGroupPattern, azRangePattern, aOneTwoPattern, basicEmojiPattern]

/-- Witness for C10: the general statement applied to the source `a)`. -/
theorem entire_pattern_must_be_consumed_witness :
    parse 30 (cps "a)") optsB = .error "Could not parse the entire pattern" :=
  entire_pattern_must_be_consumed.1 30 (cps "a)") optsB
    (.mk ⟨0, 1⟩ (.cons (.mk ⟨0, 1⟩ (.cons (.character ⟨⟨0, 1⟩, .symbol, 97⟩) .nil)) .nil))
    ⟨cps "a)", 1⟩
    (by simp [parse, parse_disjunction, parse_disjunction_list, parse_alternative,
      parse_term_list, parse_term, parse_assertion, parse_atom, parse_atom_rest,
      parse_extended_atom, parse_extended_atom_rest, parse_character_class,
      parse_class_contents, parse_nonempty_class_ranges, parse_capturing_group,
      parse_ignore_group, parse_atom_escape, parse_character_escape,
      parse_character_class_escape, parse_character_class_escape_unicode,
      parse_character_class_escape_unicode_body, parse_class_atom,
      parse_class_atom_no_dash, parse_class_atom_no_dash_escape, parse_class_escape,
      consume_decimal_escape, consume_decimal_digits, digitsVal, hexDigitsVal,
      consume_quantifier, consume_reg_exp_unicode_escape_sequence,
      consume_fixed_hex_digits, consume_hex_digits,
      consume_legacy_octal_escape_sequence, consume_octal_digit,
      consume_identity_escape, consume_extended_pattern_character, consume_group_name,
      consume_unicode_property_value_expression, consume_unicode_property_name,
      consume_unicode_property_value, is_valid_unicode_property,
      is_valid_lone_unicode_property, is_valid_lone_unicode_property_of_strings,
      property_name_value_table, lone_property_table, lone_property_of_strings_table,
      Reader.eat, Reader.eat2, Reader.eat3, Reader.eat4, Reader.peek, Reader.peek2,
      Reader.advance, Reader.advanceBy, Reader.rest, Reader.span_position, cps,
      optsB, optsU, optsV, map_control_escape, map_c_ascii_letter, is_decimal_digit,
      is_syntax_character, map_hex_digit, is_ascii_letter, u16Len, u8Len, utf8Len,
      SpanFactory.create, Span.merge, hex_val, is_lead_surrogate, is_trail_surrogate,
      is_octal_digit, is_valid_unicode, combine_surrogate_pair,
      is_unicode_property_name_character, is_unicode_property_value_character,
      is_identifier_start_char, is_identifier_part_char, singleTermPattern,
      singleCharDisjunction, lookbehindPattern, lookaheadQuantifierPattern,
      emptyIgnoreGroupPattern, azRangePattern, aOneTwoPattern, basicEmojiPattern])
    (by decide)


/-! ## Claim C3: the negative flag of unicode property escapes -/

/-- Helper: the `{...}` body always carries over the already-decided
`negative` flag into any escape node it returns. -/
theorem unicode_body_negative (ctx : State) (off ss : Nat) (neg : Bool) (r : Reader)
    (esc : UnicodePropertyEscape) (r' : Reader)
    (h : parse_character_class_escape_unicode_body ctx off ss neg r = .ok (some esc, r')) :
    esc.negative = neg := by
  simp only [parse_character_class_escape_unicode_body] at h
  repeat' split at h
  all_goals first
  | (exfalso; simp at h; done)
  | skip
  simp only [Except.ok.injEq, Prod.mk.injEq, Option.some.injEq] at h
  obtain ⟨h1, -⟩ := h
  rw [← h1]

/-- Claim C3: a successfully parsed unicode property escape has
`negative = true` exactly when the escape letter was lowercase `p`
(code point 112), and `negative = false` when it was uppercase `P` (80);
consequently, in unicode-sets mode, `\p` of a property of strings is
rejected with "Invalid property name" while `\P` of the same property
parses with `negative = false` and `strings = true`. -/
theorem property_escape_negative_flag :
    (∀ (ctx : State) (off ss : Nat) (r : Reader) (esc : UnicodePropertyEscape) (r' : Reader),
      parse_character_class_escape_unicode ctx off ss r = .ok (some esc, r') →
      ((esc.negative = true ↔ r.peek = some 112) ∧
       (r.peek = some 80 → esc.negative = false))) ∧
    parse 30 (cps "\\p\x7bBasic_Emoji\x7d") optsV = .error "Invalid property name" ∧
    parse 30 (cps "\\P\x7bBasic_Emoji\x7d") optsV = .ok basicEmojiPattern := by
  refine ⟨?_, ?_, ?_⟩
  · intro ctx off ss r esc r' h
    simp only [parse_character_class_escape_unicode, Reader.eat] at h
    split at h
    · simp at h
    · by_cases hp : r.peek = some 112
      · rw [if_pos hp] at h
        simp only [] at h
        have hneg := unicode_body_negative ctx off ss true r.advance esc r' h
        exact ⟨⟨fun _ => hp, fun _ => hneg⟩,
               fun h80 => absurd (hp.symm.trans h80) (by simp)⟩
      · rw [if_neg hp] at h
        simp only [] at h
        by_cases hP : r.peek = some 80
        · rw [if_pos hP] at h
          simp only [] at h
          have hneg := unicode_body_negative ctx off ss false r.advance esc r' h
          refine ⟨⟨fun ht => absurd (hneg ▸ ht) (by simp), fun hpk => absurd hpk hp⟩,
                  fun _ => hneg⟩
        · rw [if_neg hP] at h
          simp at h
  · simp [parse, parse_disjunction, parse_disjunction_list, parse_alternative,
      parse_term_list, parse_term, parse_assertion, parse_atom, parse_atom_rest,
      parse_extended_atom, parse_extended_atom_rest, parse_character_class,
      parse_class_contents, parse_nonempty_class_ranges, parse_capturing_group,
      parse_ignore_group, parse_atom_escape, parse_character_escape,
      parse_character_class_escape, parse_character_class_escape_unicode,
      parse_character_class_escape_unicode_body, parse_class_atom,
      parse_class_atom_no_dash, parse_class_atom_no_dash_escape, parse_class_escape,
      consume_decimal_escape, consume_decimal_digits, digitsVal, hexDigitsVal,
      consume_quantifier, consume_reg_exp_unicode_escape_sequence,
      consume_fixed_hex_digits, consume_hex_digits,
      consume_legacy_octal_escape_sequence, consume_octal_digit,
      consume_identity_escape, consume_extended_pattern_character, consume_group_name,
      consume_unicode_property_value_expression, consume_unicode_property_name,
      consume_unicode_property_value, is_valid_unicode_property,
      is_valid_lone_unicode_property, is_valid_lone_unicode_property_of_strings,
      property_name_value_table, lone_property_table, lone_property_of_strings_table,
      Reader.eat, Reader.eat2, Reader.eat3, Reader.eat4, Reader.peek, Reader.peek2,
      Reader.advance, Reader.advanceBy, Reader.rest, Reader.span_position, cps,
      optsB, optsU, optsV, map_control_escape, map_c_ascii_letter, is_decimal_digit,
      is_syntax_character, map_hex_digit, is_ascii_letter, u16Len, u8Len, utf8Len,
      SpanFactory.create, Span.merge, hex_val, is_lead_surrogate, is_trail_surrogate,
      is_octal_digit, is_valid_unicode, combine_surrogate_pair,
      is_unicode_property_name_character, is_unicode_property_value_character,
      is_identifier_start_char, is_identifier_part_char, singleTermPattern,
      singleCharDisjunction, lookbehindPattern, lookaheadQuantifierPattern,
      emptyIgnoreGroupPattern, azRangePattern, aOneTwoPattern, basicEmojiPattern]
  · simp [parse, parse_disjunction, parse_disjunction_list, parse_alternative,
      parse_term_list, parse_term, parse_assertion, parse_atom, parse_atom_rest,
      parse_extended_atom, parse_extended_atom_rest, parse_character_class,
      parse_class_contents, parse_nonempty_class_ranges, parse_capturing_group,
      parse_ignore_group, parse_atom_escape, parse_character_escape,
      parse_character_class_escape, parse_character_class_escape_unicode,
      parse_character_class_escape_unicode_body, parse_class_atom,
      parse_class_atom_no_dash, parse_class_atom_no_dash_escape, parse_class_escape,
      consume_decimal_escape, consume_decimal_digits, digitsVal, hexDigitsVal,
      consume_quantifier, consume_reg_exp_unicode_escape_sequence,
      consume_fixed_hex_digits, consume_hex_digits,
      consume_legacy_octal_escape_sequence, consume_octal_digit,
      consume_identity_escape, consume_extended_pattern_character, consume_group_name,
      consume_unicode_property_value_expression, consume_unicode_property_name,
      consume_unicode_property_value, is_valid_unicode_property,
      is_valid_lone_unicode_property, is_valid_lone_unicode_property_of_strings,
      property_name_value_table, lone_property_table, lone_property_of_strings_table,
      Reader.eat, Reader.eat2, Reader.eat3, Reader.eat4, Reader.peek, Reader.peek2,
      Reader.advance, Reader.advanceBy, Reader.rest, Reader.span_position, cps,
      optsB, optsU, optsV, map_control_escape, map_c_ascii_letter, is_decimal_digit,
      is_syntax_character, map_hex_digit, is_ascii_letter, u16Len, u8Len, utf8Len,
      SpanFactory.create, Span.merge, hex_val, is_lead_surrogate, is_trail_surrogate,
      is_octal_digit, is_valid_unicode, combine_surrogate_pair,
      is_unicode_property_name_character, is_unicode_property_value_character,
      is_identifier_start_char, is_identifier_part_char, singleTermPattern,
      singleCharDisjunction, lookbehindPattern, lookaheadQuantifierPattern,
      emptyIgnoreGroupPattern, azRangePattern, aOneTwoPattern, basicEmojiPattern]

/-- Witness for C3: the general statement applied to `p{Ll}` in unicode
mode, giving `negative = true` for the lowercase spelling. -/
theorem property_escape_negative_flag_witness :
    (⟨⟨0, 5⟩, true, false, cps "General_Category", some (cps "Ll")⟩ :
        UnicodePropertyEscape).negative = true :=
  ((property_escape_negative_flag.1 ⟨true, false⟩ 0 0 ⟨cps "p\x7bLl\x7d", 0⟩
      ⟨⟨0, 5⟩, true, false, cps "General_Category", some (cps "Ll")⟩
      ⟨cps "p\x7bLl\x7d", 5⟩ (by rfl)).1).mpr (by rfl)

/-! ## Claim C4: the quantifier mapping -/

/-- Claim C4: `consume_quantifier` maps `*` to (0, unbounded), `+` to
(1, unbounded), `?` to (0, 1), `{n}` to (n, n), `{n,}` to (n, unbounded)
and `{n,m}` to (n, m); a trailing `?` flips `greedy` to `false`, otherwise
`greedy` is `true`; `{n,m}` with m < n is the hard "numbers out of order"
error; concretely `a{2,1}` fails with that error and `a{1,2}` parses with
min 1 and max `some 2`.  `n` and `m` range over arbitrary non-empty digit
runs `ds`, `es` whose numeric value is `digitsVal`. -/
theorem quantifier_mapping :
    (∀ (src : List Nat) (pos : Nat), src[pos]? = some 42 → src[pos + 1]? ≠ some 63 →
      consume_quantifier ⟨src, pos⟩ = .ok (some ((0, none), true), ⟨src, pos + 1⟩)) ∧
    (∀ (src : List Nat) (pos : Nat), src[pos]? = some 42 → src[pos + 1]? = some 63 →
      consume_quantifier ⟨src, pos⟩ = .ok (some ((0, none), false), ⟨src, pos + 2⟩)) ∧
    (∀ (src : List Nat) (pos : Nat), src[pos]? = some 43 → src[pos + 1]? ≠ some 63 →
      consume_quantifier ⟨src, pos⟩ = .ok (some ((1, none), true), ⟨src, pos + 1⟩)) ∧
    (∀ (src : List Nat) (pos : Nat), src[pos]? = some 43 → src[pos + 1]? = some 63 →
      consume_quantifier ⟨src, pos⟩ = .ok (some ((1, none), false), ⟨src, pos + 2⟩)) ∧
    (∀ (src : List Nat) (pos : Nat), src[pos]? = some 63 → src[pos + 1]? ≠ some 63 →
      consume_quantifier ⟨src, pos⟩ = .ok (some ((0, some 1), true), ⟨src, pos + 1⟩)) ∧
    (∀ (src : List Nat) (pos : Nat), src[pos]? = some 63 → src[pos + 1]? = some 63 →
      consume_quantifier ⟨src, pos⟩ = .ok (some ((0, some 1), false), ⟨src, pos + 2⟩)) ∧
    (∀ (ds rest : List Nat), ds ≠ [] → (∀ d ∈ ds, is_decimal_digit d = true) →
      rest[0]? ≠ some 63 →
      consume_quantifier ⟨123 :: ds ++ 125 :: rest, 0⟩ =
        .ok (some ((digitsVal ds, some (digitsVal ds)), true),
             ⟨123 :: ds ++ 125 :: rest, ds.length + 2⟩)) ∧
    (∀ (ds rest : List Nat), ds ≠ [] → (∀ d ∈ ds, is_decimal_digit d = true) →
      rest[0]? ≠ some 63 →
      consume_quantifier ⟨123 :: ds ++ 44 :: 125 :: rest, 0⟩ =
        .ok (some ((digitsVal ds, none), true),
             ⟨123 :: ds ++ 44 :: 125 :: rest, ds.length + 3⟩)) ∧
    (∀ (ds es rest : List Nat), ds ≠ [] → es ≠ [] →
      (∀ d ∈ ds, is_decimal_digit d = true) → (∀ d ∈ es, is_decimal_digit d = true) →
      rest[0]? ≠ some 63 →
      consume_quantifier ⟨123 :: ds ++ 44 :: es ++ 125 :: rest, 0⟩ =
        (if digitsVal es < digitsVal ds then
          .error "Numbers out of order in braced quantifier"
         else
          .ok (some ((digitsVal ds, some (digitsVal es)), true),
               ⟨123 :: ds ++ 44 :: es ++ 125 :: rest, ds.length + es.length + 3⟩))) ∧
    (∀ (ds rest : List Nat), ds ≠ [] → (∀ d ∈ ds, is_decimal_digit d = true) →
      consume_quantifier ⟨123 :: ds ++ 125 :: 63 :: rest, 0⟩ =
        .ok (some ((digitsVal ds, some (digitsVal ds)), false),
             ⟨123 :: ds ++ 125 :: 63 :: rest, ds.length + 3⟩)) ∧
    (∀ (ds rest : List Nat), ds ≠ [] → (∀ d ∈ ds, is_decimal_digit d = true) →
      consume_quantifier ⟨123 :: ds ++ 44 :: 125 :: 63 :: rest, 0⟩ =
        .ok (some ((digitsVal ds, none), false),
             ⟨123 :: ds ++ 44 :: 125 :: 63 :: rest, ds.length + 4⟩)) ∧
    (∀ (ds es rest : List Nat), ds ≠ [] → es ≠ [] →
      (∀ d ∈ ds, is_decimal_digit d = true) → (∀ d ∈ es, is_decimal_digit d = true) →
      consume_quantifier ⟨123 :: ds ++ 44 :: es ++ 125 :: 63 :: rest, 0⟩ =
        (if digitsVal es < digitsVal ds then
          .error "Numbers out of order in braced quantifier"
         else
          .ok (some ((digitsVal ds, some (digitsVal es)), false),
               ⟨123 :: ds ++ 44 :: es ++ 125 :: 63 :: rest, ds.length + es.length + 4⟩))) ∧
    parse 30 (cps "a{2,1}") optsB = .error "Numbers out of order in braced quantifier" ∧
    parse 30 (cps "a{1,2}") optsB = .ok aOneTwoPattern := by
  refine ⟨?_, ?_, ?_, ?_, ?_, ?_, ?_, ?_, ?_, ?_, ?_, ?_, ?_, ?_⟩
  · intro src pos h1 h2
    simp [consume_quantifier, Reader.eat, Reader.peek, Reader.advance, h1, h2]
  · intro src pos h1 h2
    simp [consume_quantifier, Reader.eat, Reader.peek, Reader.advance, h1, h2]
  · intro src pos h1 h2
    simp [consume_quantifier, Reader.eat, Reader.peek, Reader.advance, h1, h2]
  · intro src pos h1 h2
    simp [consume_quantifier, Reader.eat, Reader.peek, Reader.advance, h1, h2]
  · intro src pos h1 h2
    simp [consume_quantifier, Reader.eat, Reader.peek, Reader.advance, h1, h2]
  · intro src pos h1 h2
    simp [consume_quantifier, Reader.eat, Reader.peek, Reader.advance, h1, h2]
  · intro ds rest hne hds hq
    have h125 : is_decimal_digit 125 = false := by decide
    have htw : (ds ++ 125 :: rest).takeWhile is_decimal_digit = ds :=
      takeWhile_append_all _ ds 125 rest hds h125
    have hemp : ds.isEmpty = false := by simpa [List.isEmpty_iff] using hne
    have e1 : (123 :: (ds ++ 125 :: rest))[(1 : Nat) + ds.length]? = some 125 := by
      rw [Nat.add_comm, List.getElem?_cons_succ]
      exact getElem?_append_cons_self ds rest 125
    have e2 : (123 :: (ds ++ 125 :: rest))[1 + ds.length + 1]? = rest[0]? := by
      rw [show 1 + ds.length + 1 = ds.length + 1 + 0 + 1 from by omega,
        List.getElem?_cons_succ]
      exact getElem?_append_cons_succ ds rest 125 0
    have e3 : 1 + ds.length + 1 = ds.length + 2 := by omega
    have e4 : (ds ++ 125 :: rest)[ds.length + 1]? = rest[0]? := by
      simpa using getElem?_append_cons_succ ds rest 125 0
    simp [consume_quantifier, Reader.eat, Reader.peek, Reader.advance, Reader.advanceBy,
      Reader.rest, consume_decimal_digits, htw, hemp, e1, e2, e3, e4, hq]
  · intro ds rest hne hds hq
    have h44 : is_decimal_digit 44 = false := by decide
    have htw : (ds ++ 44 :: 125 :: rest).takeWhile is_decimal_digit = ds :=
      takeWhile_append_all _ ds 44 (125 :: rest) hds h44
    have hemp : ds.isEmpty = false := by simpa [List.isEmpty_iff] using hne
    have e1 : (123 :: (ds ++ 44 :: 125 :: rest))[(1 : Nat) + ds.length]? = some 44 := by
      rw [Nat.add_comm, List.getElem?_cons_succ]
      exact getElem?_append_cons_self ds (125 :: rest) 44
    have e1b : (ds ++ 44 :: 125 :: rest)[ds.length]? = some 44 :=
      getElem?_append_cons_self ds (125 :: rest) 44
    have e2 : (123 :: (ds ++ 44 :: 125 :: rest))[1 + ds.length + 1]? = some 125 := by
      rw [show 1 + ds.length + 1 = ds.length + 1 + 0 + 1 from by omega,
        List.getElem?_cons_succ]
      simpa using getElem?_append_cons_succ ds (125 :: rest) 44 0
    have e2b : (ds ++ 44 :: 125 :: rest)[ds.length + 1]? = some 125 := by
      simpa using getElem?_append_cons_succ ds (125 :: rest) 44 0
    have e3 : (123 :: (ds ++ 44 :: 125 :: rest))[1 + ds.length + 1 + 1]? = rest[0]? := by
      rw [show 1 + ds.length + 1 + 1 = ds.length + 1 + 1 + 1 from by omega,
        List.getElem?_cons_succ]
      simpa using getElem?_append_cons_succ ds (125 :: rest) 44 1
    have e3b : (ds ++ 44 :: 125 :: rest)[ds.length + 2]? = rest[0]? := by
      have h1 := getElem?_append_cons_succ ds (125 :: rest) 44 1
      rw [show ds.length + 1 + 1 = ds.length + 2 from by omega] at h1
      simpa using h1
    have e4 : 1 + ds.length + 1 + 1 = ds.length + 3 := by omega
    simp [consume_quantifier, Reader.eat, Reader.peek, Reader.advance, Reader.advanceBy,
      Reader.rest, consume_decimal_digits, htw, hemp, e1, e1b, e2, e2b, e3, e3b, e4, hq]
  · intro ds es rest hdne hene hds hes hq
    have h44 : is_decimal_digit 44 = false := by decide
    have h125 : is_decimal_digit 125 = false := by decide
    obtain ⟨e0, es', rfl⟩ : ∃ e0 es', es = e0 :: es' := by
      cases es with
      | nil => exact absurd rfl hene
      | cons a t => exact ⟨a, t, rfl⟩
    have htwA : (ds ++ 44 :: e0 :: (es' ++ 125 :: rest)).takeWhile is_decimal_digit = ds :=
      takeWhile_append_all _ ds 44 (e0 :: (es' ++ 125 :: rest)) hds h44
    have htwB : (e0 :: (es' ++ 125 :: rest)).takeWhile is_decimal_digit = e0 :: es' := by
      simpa using takeWhile_append_all _ (e0 :: es') 125 rest hes h125
    have hemp : ds.isEmpty = false := by simpa [List.isEmpty_iff] using hdne
    have he0 : is_decimal_digit e0 = true := hes e0 (by simp)
    have he0ne : e0 ≠ 125 := by
      intro hcontra
      rw [hcontra] at he0
      exact absurd he0 (by decide)
    have a1 : (ds ++ 44 :: e0 :: (es' ++ 125 :: rest))[ds.length]? = some 44 :=
      getElem?_append_cons_self ds (e0 :: (es' ++ 125 :: rest)) 44
    have a2 : (ds ++ 44 :: e0 :: (es' ++ 125 :: rest))[ds.length + 1]? = some e0 := by
      simpa using getElem?_append_cons_succ ds (e0 :: (es' ++ 125 :: rest)) 44 0
    have a3 : (ds ++ 44 :: e0 :: (es' ++ 125 :: rest))[ds.length + es'.length + 2]? =
        some 125 := by
      have h1 := getElem?_append_cons_succ ds (e0 :: (es' ++ 125 :: rest)) 44 (es'.length + 1)
      rw [show ds.length + 1 + (es'.length + 1) = ds.length + es'.length + 2 from by omega]
        at h1
      rw [h1, List.getElem?_cons_succ]
      exact getElem?_append_cons_self es' rest 125
    have a4 : (ds ++ 44 :: e0 :: (es' ++ 125 :: rest))[ds.length + es'.length + 3]? =
        rest[0]? := by
      have h1 := getElem?_append_cons_succ ds (e0 :: (es' ++ 125 :: rest)) 44 (es'.length + 2)
      rw [show ds.length + 1 + (es'.length + 2) = ds.length + es'.length + 3 from by omega]
        at h1
      rw [h1, show es'.length + 2 = es'.length + 1 + 1 from by omega,
        List.getElem?_cons_succ]
      simpa using getElem?_append_cons_succ es' rest 125 0
    have b1 : (123 :: (ds ++ 44 :: e0 :: (es' ++ 125 :: rest)))[1 + ds.length]? =
        some 44 := by
      rw [Nat.add_comm, List.getElem?_cons_succ]
      exact a1
    have b2 : (123 :: (ds ++ 44 :: e0 :: (es' ++ 125 :: rest)))[1 + ds.length + 1]? =
        some e0 := by
      rw [show 1 + ds.length + 1 = ds.length + 1 + 1 from by omega, List.getElem?_cons_succ]
      exact a2
    have b3 : (123 :: (ds ++ 44 :: e0 :: (es' ++ 125 :: rest)))[1 + ds.length + 1 +
        (es'.length + 1)]? = some 125 := by
      rw [show 1 + ds.length + 1 + (es'.length + 1) = (ds.length + es'.length + 2) + 1
          from by omega, List.getElem?_cons_succ]
      exact a3
    have b3b : (123 :: (ds ++ 44 :: e0 :: (es' ++ 125 :: rest)))[ds.length + 2 +
        (es'.length + 1)]? = some 125 := by
      rw [show ds.length + 2 + (es'.length + 1) = (ds.length + es'.length + 2) + 1
          from by omega, List.getElem?_cons_succ]
      exact a3
    have b3c : (123 :: (ds ++ 44 :: e0 :: (es' ++ 125 :: rest)))[ds.length + es'.length +
        3]? = some 125 := by
      rw [show ds.length + es'.length + 3 = (ds.length + es'.length + 2) + 1 from by omega,
        List.getElem?_cons_succ]
      exact a3
    have b4 : (123 :: (ds ++ 44 :: e0 :: (es' ++ 125 :: rest)))[1 + ds.length + 1 +
        (es'.length + 1) + 1]? = rest[0]? := by
      rw [show 1 + ds.length + 1 + (es'.length + 1) + 1 = (ds.length + es'.length + 3) + 1
          from by omega, List.getElem?_cons_succ]
      exact a4
    have b4b : (123 :: (ds ++ 44 :: e0 :: (es' ++ 125 :: rest)))[ds.length + es'.length +
        4]? = rest[0]? := by
      rw [show ds.length + es'.length + 4 = (ds.length + es'.length + 3) + 1 from by omega,
        List.getElem?_cons_succ]
      exact a4
    have dA : (ds ++ 44 :: e0 :: (es' ++ 125 :: rest)).drop (ds.length + 1) =
        e0 :: (es' ++ 125 :: rest) :=
      drop_append_cons ds (e0 :: (es' ++ 125 :: rest)) 44
    have c1 : (123 :: (ds ++ 44 :: e0 :: (es' ++ 125 :: rest))).drop (1 + ds.length + 1) =
        e0 :: (es' ++ 125 :: rest) := by
      rw [show 1 + ds.length + 1 = ds.length + 1 + 1 from by omega, List.drop_succ_cons]
      exact dA
    have c2 : (123 :: (ds ++ 44 :: e0 :: (es' ++ 125 :: rest))).drop (ds.length + 2) =
        e0 :: (es' ++ 125 :: rest) := by
      rw [show ds.length + 2 = ds.length + 1 + 1 from by omega, List.drop_succ_cons]
      exact dA
    have a4b : (ds ++ 44 :: e0 :: (es' ++ 125 :: rest))[ds.length + (es'.length + 1) +
        2]? = rest[0]? := by
      rw [show ds.length + (es'.length + 1) + 2 = ds.length + es'.length + 3 from by omega]
      exact a4
    have n1 : 1 + ds.length + 1 + (es'.length + 1) + 1 = ds.length + (es'.length + 1) + 3 :=
      by omega
    by_cases hord : digitsVal (e0 :: es') < digitsVal ds
    · simp [consume_quantifier, Reader.eat, Reader.peek, Reader.advance, Reader.advanceBy,
        Reader.rest, consume_decimal_digits, htwA, htwB, hemp, he0ne, a1, a2, a3, a4,
        b1, b2, b3, b3b, b3c, b4, b4b, a4b, dA, c1, c2, n1, hq, hord]
    · simp [consume_quantifier, Reader.eat, Reader.peek, Reader.advance, Reader.advanceBy,
        Reader.rest, consume_decimal_digits, htwA, htwB, hemp, he0ne, a1, a2, a3, a4,
        b1, b2, b3, b3b, b3c, b4, b4b, a4b, dA, c1, c2, n1, hq, hord]
  · intro ds rest hne hds
    have h125 : is_decimal_digit 125 = false := by decide
    have htw : (ds ++ 125 :: 63 :: rest).takeWhile is_decimal_digit = ds :=
      takeWhile_append_all _ ds 125 (63 :: rest) hds h125
    have hemp : ds.isEmpty = false := by simpa [List.isEmpty_iff] using hne
    have e1 : (123 :: (ds ++ 125 :: 63 :: rest))[(1 : Nat) + ds.length]? = some 125 := by
      rw [Nat.add_comm, List.getElem?_cons_succ]
      exact getElem?_append_cons_self ds (63 :: rest) 125
    have e2 : (123 :: (ds ++ 125 :: 63 :: rest))[1 + ds.length + 1]? = some 63 := by
      rw [show 1 + ds.length + 1 = ds.length + 1 + 0 + 1 from by omega,
        List.getElem?_cons_succ, getElem?_append_cons_succ ds (63 :: rest) 125 0,
        List.getElem?_cons_zero]
    have e3 : 1 + ds.length + 1 = ds.length + 2 := by omega
    have e3b : 1 + ds.length + 1 + 1 = ds.length + 3 := by omega
    have e4 : (ds ++ 125 :: 63 :: rest)[ds.length + 1]? = some 63 := by
      rw [show ds.length + 1 = ds.length + 1 + 0 from rfl,
        getElem?_append_cons_succ ds (63 :: rest) 125 0, List.getElem?_cons_zero]
    simp [consume_quantifier, Reader.eat, Reader.peek, Reader.advance, Reader.advanceBy,
      Reader.rest, consume_decimal_digits, htw, hemp, e1, e2, e3, e3b, e4]
  · intro ds rest hne hds
    have h44 : is_decimal_digit 44 = false := by decide
    have htw : (ds ++ 44 :: 125 :: 63 :: rest).takeWhile is_decimal_digit = ds :=
      takeWhile_append_all _ ds 44 (125 :: 63 :: rest) hds h44
    have hemp : ds.isEmpty = false := by simpa [List.isEmpty_iff] using hne
    have e1 : (123 :: (ds ++ 44 :: 125 :: 63 :: rest))[(1 : Nat) + ds.length]? = some 44 := by
      rw [Nat.add_comm, List.getElem?_cons_succ]
      exact getElem?_append_cons_self ds (125 :: 63 :: rest) 44
    have e1b : (ds ++ 44 :: 125 :: 63 :: rest)[ds.length]? = some 44 :=
      getElem?_append_cons_self ds (125 :: 63 :: rest) 44
    have e2 : (123 :: (ds ++ 44 :: 125 :: 63 :: rest))[1 + ds.length + 1]? = some 125 := by
      rw [show 1 + ds.length + 1 = ds.length + 1 + 0 + 1 from by omega,
        List.getElem?_cons_succ]
      simpa using getElem?_append_cons_succ ds (125 :: 63 :: rest) 44 0
    have e2b : (ds ++ 44 :: 125 :: 63 :: rest)[ds.length + 1]? = some 125 := by
      simpa using getElem?_append_cons_succ ds (125 :: 63 :: rest) 44 0
    have e3 : (123 :: (ds ++ 44 :: 125 :: 63 :: rest))[1 + ds.length + 1 + 1]? = some 63 := by
      rw [show 1 + ds.length + 1 + 1 = ds.length + 1 + 1 + 1 from by omega,
        List.getElem?_cons_succ, getElem?_append_cons_succ ds (125 :: 63 :: rest) 44 1,
        List.getElem?_cons_succ, List.getElem?_cons_zero]
    have e3b : (ds ++ 44 :: 125 :: 63 :: rest)[ds.length + 2]? = some 63 := by
      have h1 := getElem?_append_cons_succ ds (125 :: 63 :: rest) 44 1
      rw [show ds.length + 1 + 1 = ds.length + 2 from by omega] at h1
      rw [h1, List.getElem?_cons_succ, List.getElem?_cons_zero]
    have e4 : 1 + ds.length + 1 + 1 = ds.length + 3 := by omega
    have e4b : 1 + ds.length + 1 + 1 + 1 = ds.length + 4 := by omega
    simp [consume_quantifier, Reader.eat, Reader.peek, Reader.advance, Reader.advanceBy,
      Reader.rest, consume_decimal_digits, htw, hemp, e1, e1b, e2, e2b, e3, e3b, e4, e4b]
  · intro ds es rest hdne hene hds hes
    have h44 : is_decimal_digit 44 = false := by decide
    have h125 : is_decimal_digit 125 = false := by decide
    obtain ⟨e0, es', rfl⟩ : ∃ e0 es', es = e0 :: es' := by
      cases es with
      | nil => exact absurd rfl hene
      | cons a t => exact ⟨a, t, rfl⟩
    have htwA : (ds ++ 44 :: e0 :: (es' ++ 125 :: 63 :: rest)).takeWhile is_decimal_digit = ds :=
      takeWhile_append_all _ ds 44 (e0 :: (es' ++ 125 :: 63 :: rest)) hds h44
    have htwB : (e0 :: (es' ++ 125 :: 63 :: rest)).takeWhile is_decimal_digit = e0 :: es' := by
      simpa using takeWhile_append_all _ (e0 :: es') 125 (63 :: rest) hes h125
    have hemp : ds.isEmpty = false := by simpa [List.isEmpty_iff] using hdne
    have he0 : is_decimal_digit e0 = true := hes e0 (by simp)
    have he0ne : e0 ≠ 125 := by
      intro hcontra
      rw [hcontra] at he0
      exact absurd he0 (by decide)
    have a1 : (ds ++ 44 :: e0 :: (es' ++ 125 :: 63 :: rest))[ds.length]? = some 44 :=
      getElem?_append_cons_self ds (e0 :: (es' ++ 125 :: 63 :: rest)) 44
    have a2 : (ds ++ 44 :: e0 :: (es' ++ 125 :: 63 :: rest))[ds.length + 1]? = some e0 := by
      simpa using getElem?_append_cons_succ ds (e0 :: (es' ++ 125 :: 63 :: rest)) 44 0
    have a3 : (ds ++ 44 :: e0 :: (es' ++ 125 :: 63 :: rest))[ds.length + es'.length + 2]? =
        some 125 := by
      have h1 := getElem?_append_cons_succ ds (e0 :: (es' ++ 125 :: 63 :: rest)) 44
        (es'.length + 1)
      rw [show ds.length + 1 + (es'.length + 1) = ds.length + es'.length + 2 from by omega]
        at h1
      rw [h1, List.getElem?_cons_succ]
      exact getElem?_append_cons_self es' (63 :: rest) 125
    have a4 : (ds ++ 44 :: e0 :: (es' ++ 125 :: 63 :: rest))[ds.length + es'.length + 3]? =
        some 63 := by
      have h1 := getElem?_append_cons_succ ds (e0 :: (es' ++ 125 :: 63 :: rest)) 44
        (es'.length + 2)
      rw [show ds.length + 1 + (es'.length + 2) = ds.length + es'.length + 3 from by omega]
        at h1
      rw [h1, show es'.length + 2 = es'.length + 1 + 1 from by omega,
        List.getElem?_cons_succ,
        show es'.length + 1 = es'.length + 1 + 0 from rfl,
        getElem?_append_cons_succ es' (63 :: rest) 125 0, List.getElem?_cons_zero]
    have b1 : (123 :: (ds ++ 44 :: e0 :: (es' ++ 125 :: 63 :: rest)))[1 + ds.length]? =
        some 44 := by
      rw [Nat.add_comm, List.getElem?_cons_succ]
      exact a1
    have b2 : (123 :: (ds ++ 44 :: e0 :: (es' ++ 125 :: 63 :: rest)))[1 + ds.length + 1]? =
        some e0 := by
      rw [show 1 + ds.length + 1 = ds.length + 1 + 1 from by omega, List.getElem?_cons_succ]
      exact a2
    have b3 : (123 :: (ds ++ 44 :: e0 :: (es' ++ 125 :: 63 :: rest)))[1 + ds.length + 1 +
        (es'.length + 1)]? = some 125 := by
      rw [show 1 + ds.length + 1 + (es'.length + 1) = (ds.length + es'.length + 2) + 1
          from by omega, List.getElem?_cons_succ]
      exact a3
    have b3b : (123 :: (ds ++ 44 :: e0 :: (es' ++ 125 :: 63 :: rest)))[ds.length + 2 +
        (es'.length + 1)]? = some 125 := by
      rw [show ds.length + 2 + (es'.length + 1) = (ds.length + es'.length + 2) + 1
          from by omega, List.getElem?_cons_succ]
      exact a3
    have b3c : (123 :: (ds ++ 44 :: e0 :: (es' ++ 125 :: 63 :: rest)))[ds.length + es'.length +
        3]? = some 125 := by
      rw [show ds.length + es'.length + 3 = (ds.length + es'.length + 2) + 1 from by omega,
        List.getElem?_cons_succ]
      exact a3
    have b4 : (123 :: (ds ++ 44 :: e0 :: (es' ++ 125 :: 63 :: rest)))[1 + ds.length + 1 +
        (es'.length + 1) + 1]? = some 63 := by
      rw [show 1 + ds.length + 1 + (es'.length + 1) + 1 = (ds.length + es'.length + 3) + 1
          from by omega, List.getElem?_cons_succ]
      exact a4
    have b4b : (123 :: (ds ++ 44 :: e0 :: (es' ++ 125 :: 63 :: rest)))[ds.length + es'.length +
        4]? = some 63 := by
      rw [show ds.length + es'.length + 4 = (ds.length + es'.length + 3) + 1 from by omega,
        List.getElem?_cons_succ]
      exact a4
    have dA : (ds ++ 44 :: e0 :: (es' ++ 125 :: 63 :: rest)).drop (ds.length + 1) =
        e0 :: (es' ++ 125 :: 63 :: rest) :=
      drop_append_cons ds (e0 :: (es' ++ 125 :: 63 :: rest)) 44
    have c1 : (123 :: (ds ++ 44 :: e0 :: (es' ++ 125 :: 63 :: rest))).drop (1 + ds.length + 1) =
        e0 :: (es' ++ 125 :: 63 :: rest) := by
      rw [show 1 + ds.length + 1 = ds.length + 1 + 1 from by omega, List.drop_succ_cons]
      exact dA
    have c2 : (123 :: (ds ++ 44 :: e0 :: (es' ++ 125 :: 63 :: rest))).drop (ds.length + 2) =
        e0 :: (es' ++ 125 :: 63 :: rest) := by
      rw [show ds.length + 2 = ds.length + 1 + 1 from by omega, List.drop_succ_cons]
      exact dA
    have a4b : (ds ++ 44 :: e0 :: (es' ++ 125 :: 63 :: rest))[ds.length + (es'.length + 1) +
        2]? = some 63 := by
      rw [show ds.length + (es'.length + 1) + 2 = ds.length + es'.length + 3 from by omega]
      exact a4
    have n1 : 1 + ds.length + 1 + (es'.length + 1) + 1 = ds.length + (es'.length + 1) + 3 :=
      by omega
    have n2 : 1 + ds.length + 1 + (es'.length + 1) + 1 + 1 =
        ds.length + (es'.length + 1) + 4 := by omega
    have n3 : ds.length + (es'.length + 1) + 3 + 1 = ds.length + (es'.length + 1) + 4 :=
      by omega
    by_cases hord : digitsVal (e0 :: es') < digitsVal ds
    · simp [consume_quantifier, Reader.eat, Reader.peek, Reader.advance, Reader.advanceBy,
        Reader.rest, consume_decimal_digits, htwA, htwB, hemp, he0ne, a1, a2, a3, a4,
        b1, b2, b3, b3b, b3c, b4, b4b, a4b, dA, c1, c2, n1, n2, n3, hord]
    · simp [consume_quantifier, Reader.eat, Reader.peek, Reader.advance, Reader.advanceBy,
        Reader.rest, consume_decimal_digits, htwA, htwB, hemp, he0ne, a1, a2, a3, a4,
        b1, b2, b3, b3b, b3c, b4, b4b, a4b, dA, c1, c2, n1, n2, n3, hord]
  · simp [parse, parse_disjunction, parse_disjunction_list, parse_alternative,
      parse_term_list, parse_term, parse_assertion, parse_atom, parse_atom_rest,
      parse_extended_atom, parse_extended_atom_rest, parse_character_class,
      parse_class_contents, parse_nonempty_class_ranges, parse_capturing_group,
      parse_ignore_group, parse_atom_escape, parse_character_escape,
      parse_character_class_escape, parse_character_class_escape_unicode,
      parse_character_class_escape_unicode_body, parse_class_atom,
      parse_class_atom_no_dash, parse_class_atom_no_dash_escape, parse_class_escape,
      consume_decimal_escape, consume_decimal_digits, digitsVal, hexDigitsVal,
      consume_quantifier, consume_reg_exp_unicode_escape_sequence,
      consume_fixed_hex_digits, consume_hex_digits,
      consume_legacy_octal_escape_sequence, consume_octal_digit,
      consume_identity_escape, consume_extended_pattern_character, consume_group_name,
      consume_unicode_property_value_expression, consume_unicode_property_name,
      consume_unicode_property_value, is_valid_unicode_property,
      is_valid_lone_unicode_property, is_valid_lone_unicode_property_of_strings,
      property_name_value_table, lone_property_table, lone_property_of_strings_table,
      Reader.eat, Reader.eat2, Reader.eat3, Reader.eat4, Reader.peek, Reader.peek2,
      Reader.advance, Reader.advanceBy, Reader.rest, Reader.span_position, cps,
      optsB, optsU, optsV, map_control_escape, map_c_ascii_letter, is_decimal_digit,
      is_syntax_character, map_hex_digit, is_ascii_letter, u16Len, u8Len, utf8Len,
      SpanFactory.create, Span.merge, hex_val, is_lead_surrogate, is_trail_surrogate,
      is_octal_digit, is_valid_unicode, combine_surrogate_pair,
      is_unicode_property_name_character, is_unicode_property_value_character,
      is_identifier_start_char, is_identifier_part_char, singleTermPattern,
      singleCharDisjunction, lookbehindPattern, lookaheadQuantifierPattern,
      emptyIgnoreGroupPattern, azRangePattern, aOneTwoPattern, basicEmojiPattern]
  · simp [parse, parse_disjunction, parse_disjunction_list, parse_alternative,
      parse_term_list, parse_term, parse_assertion, parse_atom, parse_atom_rest,
      parse_extended_atom, parse_extended_atom_rest, parse_character_class,
      parse_class_contents, parse_nonempty_class_ranges, parse_capturing_group,
      parse_ignore_group, parse_atom_escape, parse_character_escape,
      parse_character_class_escape, parse_character_class_escape_unicode,
      parse_character_class_escape_unicode_body, parse_class_atom,
      parse_class_atom_no_dash, parse_class_atom_no_dash_escape, parse_class_escape,
      consume_decimal_escape, consume_decimal_digits, digitsVal, hexDigitsVal,
      consume_quantifier, consume_reg_exp_unicode_escape_sequence,
      consume_fixed_hex_digits, consume_hex_digits,
      consume_legacy_octal_escape_sequence, consume_octal_digit,
      consume_identity_escape, consume_extended_pattern_character, consume_group_name,
      consume_unicode_property_value_expression, consume_unicode_property_name,
      consume_unicode_property_value, is_valid_unicode_property,
      is_valid_lone_unicode_property, is_valid_lone_unicode_property_of_strings,
      property_name_value_table, lone_property_table, lone_property_of_strings_table,
      Reader.eat, Reader.eat2, Reader.eat3, Reader.eat4, Reader.peek, Reader.peek2,
      Reader.advance, Reader.advanceBy, Reader.rest, Reader.span_position, cps,
      optsB, optsU, optsV, map_control_escape, map_c_ascii_letter, is_decimal_digit,
      is_syntax_character, map_hex_digit, is_ascii_letter, u16Len, u8Len, utf8Len,
      SpanFactory.create, Span.merge, hex_val, is_lead_surrogate, is_trail_surrogate,
      is_octal_digit, is_valid_unicode, combine_surrogate_pair,
      is_unicode_property_name_character, is_unicode_property_value_character,
      is_identifier_start_char, is_identifier_part_char, singleTermPattern,
      singleCharDisjunction, lookbehindPattern, lookaheadQuantifierPattern,
      emptyIgnoreGroupPattern, azRangePattern, aOneTwoPattern, basicEmojiPattern]


/-! ## Claim C5: the character-class range invariant -/

theorem term_ranges_ok_lookAround (sp : Span) (kind : LookAroundAssertionKind)
    (body : Disjunction) (h : term_ranges_ok (.lookAroundAssertion sp kind body) = true) :
    disj_ranges_ok body = true := by
  simpa [term_ranges_ok] using h

theorem term_ranges_ok_quantifier (sp : Span) (mn : Nat) (mx : Option Nat) (g : Bool)
    (b : Term) (h : term_ranges_ok (.quantifier sp mn mx g b) = true) :
    term_ranges_ok b = true := by
  simpa [term_ranges_ok] using h

theorem term_ranges_ok_class (c : CharacterClass)
    (h : term_ranges_ok (.characterClass c) = true) : class_ranges_ok c = true := by
  simpa [term_ranges_ok] using h

theorem term_ranges_ok_capturing (sp : Span) (n : Option (List Nat)) (d : Disjunction)
    (h : term_ranges_ok (.capturingGroup sp n d) = true) : disj_ranges_ok d = true := by
  simpa [term_ranges_ok] using h

theorem term_ranges_ok_ignore (sp : Span) (d : Disjunction)
    (h : term_ranges_ok (.ignoreGroup sp d) = true) : disj_ranges_ok d = true := by
  simpa [term_ranges_ok] using h

/-- `parse_atom_escape` only builds references, class escapes, property
escapes and characters: none contains a class range. -/
theorem parse_atom_escape_ranges_ok (ctx : State) (off ss : Nat) (r : Reader) (x : Term)
    (r' : Reader) (h : parse_atom_escape ctx off ss r = .ok (some x, r')) :
    term_ranges_ok x = true := by
  simp only [parse_atom_escape] at h
  repeat' split at h
  all_goals first
  | (exfalso; simp at h; done)
  | (simp only [Except.ok.injEq, Prod.mk.injEq, Option.some.injEq] at h
     obtain ⟨h1, -⟩ := h
     subst h1
     simp [term_ranges_ok])

/-- `parse_class_escape` never builds a class range. -/
theorem parse_class_escape_ranges_ok (ctx : State) (off ss : Nat) (r : Reader)
    (x : CharacterClassContents) (r' : Reader)
    (h : parse_class_escape ctx off ss r = .ok (some x, r')) :
    contents_ranges_ok x = true := by
  simp only [parse_class_escape] at h
  repeat' split at h
  all_goals first
  | (exfalso; simp at h; done)
  | (simp only [Except.ok.injEq, Prod.mk.injEq, Option.some.injEq] at h
     obtain ⟨h1, -⟩ := h
     subst h1
     simp [contents_ranges_ok]
     done)
  | (rename_i heq
     repeat' split at heq
     all_goals first
     | (exfalso; simp at heq; done)
     | (simp only [Option.some.injEq, Prod.mk.injEq] at heq
        obtain ⟨h1, -⟩ := heq
        subst h1
        simp only [Except.ok.injEq, Prod.mk.injEq, Option.some.injEq] at h
        obtain ⟨h2, -⟩ := h
        subst h2
        simp [contents_ranges_ok]
        done))

/-- Neither does the escape tail of `parse_class_atom_no_dash`. -/
theorem parse_class_atom_no_dash_escape_ranges_ok (ctx : State) (off ss : Nat) (r : Reader)
    (x : CharacterClassContents) (r' : Reader)
    (h : parse_class_atom_no_dash_escape ctx off ss r = .ok (some x, r')) :
    contents_ranges_ok x = true := by
  simp only [parse_class_atom_no_dash_escape] at h
  repeat' split at h
  all_goals first
  | (exfalso; simp at h; done)
  | (simp only [Except.ok.injEq, Prod.mk.injEq, Option.some.injEq] at h
     obtain ⟨h1, -⟩ := h
     subst h1
     first
     | (apply parse_class_escape_ranges_ok <;> assumption)
     | (simp [contents_ranges_ok]; done))

/-- Nor `parse_class_atom_no_dash` itself. -/
theorem parse_class_atom_no_dash_ranges_ok (ctx : State) (off : Nat) (r : Reader)
    (x : CharacterClassContents) (r' : Reader)
    (h : parse_class_atom_no_dash ctx off r = .ok (some x, r')) :
    contents_ranges_ok x = true := by
  simp only [parse_class_atom_no_dash] at h
  repeat' split at h
  all_goals first
  | (exfalso; simp at h; done)
  | (apply parse_class_atom_no_dash_escape_ranges_ok <;> assumption)
  | (simp only [Except.ok.injEq, Prod.mk.injEq, Option.some.injEq] at h
     obtain ⟨h1, -⟩ := h
     subst h1
     simp [contents_ranges_ok])

/-- Nor `parse_class_atom`: a single class atom never is a range. -/
theorem parse_class_atom_ranges_ok (ctx : State) (off : Nat) (r : Reader)
    (x : CharacterClassContents) (r' : Reader)
    (h : parse_class_atom ctx off r = .ok (some x, r')) :
    contents_ranges_ok x = true := by
  simp only [parse_class_atom] at h
  repeat' split at h
  all_goals first
  | (exfalso; simp at h; done)
  | (apply parse_class_atom_no_dash_ranges_ok <;> assumption)
  | (simp only [Except.ok.injEq, Prod.mk.injEq, Option.some.injEq] at h
     obtain ⟨h1, -⟩ := h
     subst h1
     simp [contents_ranges_ok])

/-- The range invariant holds for every value produced by every grammar
function, by induction on the fuel: the only place a
`CharacterClassRange` is constructed guards it with the
"Character class range out of order" check. -/
theorem ranges_ok_master : ∀ fuel : Nat,
    (∀ ctx off r x r', parse_disjunction fuel ctx off r = .ok (x, r') →
      disj_ranges_ok x = true) ∧
    (∀ ctx off r x r', parse_disjunction_list fuel ctx off r = .ok (x, r') →
      alt_list_ranges_ok x = true) ∧
    (∀ ctx off r x r', parse_alternative fuel ctx off r = .ok (x, r') →
      alt_ranges_ok x = true) ∧
    (∀ ctx off r x r', parse_term_list fuel ctx off r = .ok (x, r') →
      term_list_ranges_ok x = true) ∧
    (∀ ctx off r x r', parse_term fuel ctx off r = .ok (some x, r') →
      term_ranges_ok x = true) ∧
    (∀ ctx off r x r', parse_assertion fuel ctx off r = .ok (some x, r') →
      term_ranges_ok x = true) ∧
    (∀ ctx off r x r', parse_atom fuel ctx off r = .ok (some x, r') →
      term_ranges_ok x = true) ∧
    (∀ ctx off ss r x r', parse_atom_rest fuel ctx off ss r = .ok (some x, r') →
      term_ranges_ok x = true) ∧
    (∀ ctx off r x r', parse_extended_atom fuel ctx off r = .ok (some x, r') →
      term_ranges_ok x = true) ∧
    (∀ ctx off ss r x r', parse_extended_atom_rest fuel ctx off ss r = .ok (some x, r') →
      term_ranges_ok x = true) ∧
    (∀ ctx off r x r', parse_character_class fuel ctx off r = .ok (some x, r') →
      class_ranges_ok x = true) ∧
    (∀ ctx off r k x r', parse_class_contents fuel ctx off r = .ok ((k, x), r') →
      x.all contents_ranges_ok = true) ∧
    (∀ ctx off r x r', parse_nonempty_class_ranges fuel ctx off r = .ok (some x, r') →
      x.all contents_ranges_ok = true) ∧
    (∀ ctx off r x r', parse_capturing_group fuel ctx off r = .ok (some x, r') →
      term_ranges_ok x = true) ∧
    (∀ ctx off r x r', parse_ignore_group fuel ctx off r = .ok (some x, r') →
      term_ranges_ok x = true) := by
  intro fuel
  induction fuel with
  | zero =>
    refine ⟨?_, ?_, ?_, ?_, ?_, ?_, ?_, ?_, ?_, ?_, ?_, ?_, ?_, ?_, ?_⟩ <;>
      (intros
       rename_i h
       simp only [parse_disjunction, parse_disjunction_list, parse_alternative,
         parse_term_list, parse_term, parse_assertion, parse_atom, parse_atom_rest,
         parse_extended_atom, parse_extended_atom_rest, parse_character_class,
         parse_class_contents, parse_nonempty_class_ranges, parse_capturing_group,
         parse_ignore_group] at h
       exact absurd h (by simp))
  | succ fuel ih =>
    obtain ⟨ihD, ihDL, ihA, ihTL, ihT, ihAs, ihAt, ihAtR, ihEx, ihExR, ihCC, ihCCo,
      ihNE, ihCG, ihIG⟩ := ih
    refine ⟨?_, ?_, ?_, ?_, ?_, ?_, ?_, ?_, ?_, ?_, ?_, ?_, ?_, ?_, ?_⟩ <;>
      (intros
       rename_i h
       simp only [parse_disjunction, parse_disjunction_list, parse_alternative,
         parse_term_list, parse_term, parse_assertion, parse_atom, parse_atom_rest,
         parse_extended_atom, parse_extended_atom_rest, parse_character_class,
         parse_class_contents, parse_nonempty_class_ranges, parse_capturing_group,
         parse_ignore_group] at h
       repeat' split at h
       all_goals first
       | (exfalso; simp at h; done)
       | solve_by_elim
       | ((first
           | (simp only [Except.ok.injEq, Prod.mk.injEq, Option.some.injEq] at h
              obtain ⟨h1, -⟩ := h)
           | (simp only [Except.ok.injEq, Prod.mk.injEq] at h
              obtain ⟨⟨-, h1⟩, -⟩ := h))
          (try obtain ⟨-, h1⟩ := h1)
          (try subst h1)
          (try rw [← h1])
          try simp only [term_ranges_ok, term_list_ranges_ok, alt_ranges_ok,
            alt_list_ranges_ok, disj_ranges_ok, class_ranges_ok, contents_ranges_ok,
            List.all_cons, List.all_append, List.all_nil, Bool.and_eq_true,
            decide_eq_true_eq]
          all_goals (repeat' apply And.intro)
          all_goals first
          | rfl
          | trivial
          | omega
          | solve_by_elim [parse_atom_escape_ranges_ok, parse_class_atom_ranges_ok,
              parse_class_escape_ranges_ok, parse_class_atom_no_dash_ranges_ok,
              term_ranges_ok_lookAround, term_ranges_ok_quantifier,
              term_ranges_ok_class, term_ranges_ok_capturing, term_ranges_ok_ignore]))


/-- Claim C5: whenever both endpoints of a character-class range are known
characters, the parser enforces `min <= max`: the out-of-order class
`[z-a]` fails with "Character class range out of order", the in-order
class `[a-z]` parses to the expected range pattern, and every pattern the
parser ever returns satisfies the global invariant `pattern_ranges_ok`
(every `CharacterClassRange` in the result has `min.value <= max.value`),
proved by fuel induction over the mutual grammar functions. -/
theorem class_range_ordering :
    parse 30 (cps "[z-a]") optsB = .error "Character class range out of order" ∧
    parse 30 (cps "[a-z]") optsB = .ok azRangePattern ∧
    (∀ (fuel : Nat) (src : List Nat) (opts : ParserOptions) (p : Pattern),
      parse fuel src opts = .ok p → pattern_ranges_ok p = true) := by
  refine ⟨?_, ?_, ?_⟩
  · simp [parse, parse_disjunction, parse_disjunction_list, parse_alternative,
      parse_term_list, parse_term, parse_assertion, parse_atom, parse_atom_rest,
      parse_extended_atom, parse_extended_atom_rest, parse_character_class,
      parse_class_contents, parse_nonempty_class_ranges, parse_capturing_group,
      parse_ignore_group, parse_atom_escape, parse_character_escape,
      parse_character_class_escape, parse_character_class_escape_unicode,
      parse_character_class_escape_unicode_body, parse_class_atom,
      parse_class_atom_no_dash, parse_class_atom_no_dash_escape, parse_class_escape,
      consume_decimal_escape, consume_decimal_digits, digitsVal, hexDigitsVal,
      consume_quantifier, consume_reg_exp_unicode_escape_sequence,
      consume_fixed_hex_digits, consume_hex_digits,
      consume_legacy_octal_escape_sequence, consume_octal_digit,
      consume_identity_escape, consume_extended_pattern_character, consume_group_name,
      consume_unicode_property_value_expression, consume_unicode_property_name,
      consume_unicode_property_value, is_valid_unicode_property,
      is_valid_lone_unicode_property, is_valid_lone_unicode_property_of_strings,
      property_name_value_table, lone_property_table, lone_property_of_strings_table,
      Reader.eat, Reader.eat2, Reader.eat3, Reader.eat4, Reader.peek, Reader.peek2,
      Reader.advance, Reader.advanceBy, Reader.rest, Reader.span_position, cps,
      optsB, optsU, optsV, map_control_escape, map_c_ascii_letter, is_decimal_digit,
      is_syntax_character, map_hex_digit, is_ascii_letter, u16Len, u8Len, utf8Len,
      SpanFactory.create, Span.merge, hex_val, is_lead_surrogate, is_trail_surrogate,
      is_octal_digit, is_valid_unicode, combine_surrogate_pair,
      is_unicode_property_name_character, is_unicode_property_value_character,
      is_identifier_start_char, is_identifier_part_char, singleTermPattern,
      singleCharDisjunction, lookbehindPattern, lookaheadQuantifierPattern,
      emptyIgnoreGroupPattern, azRangePattern, aOneTwoPattern, basicEmojiPattern]
  · simp [parse, parse_disjunction, parse_disjunction_list, parse_alternative,
      parse_term_list, parse_term, parse_assertion, parse_atom, parse_atom_rest,
      parse_extended_atom, parse_extended_atom_rest, parse_character_class,
      parse_class_contents, parse_nonempty_class_ranges, parse_capturing_group,
      parse_ignore_group, parse_atom_escape, parse_character_escape,
      parse_character_class_escape, parse_character_class_escape_unicode,
      parse_character_class_escape_unicode_body, parse_class_atom,
      parse_class_atom_no_dash, parse_class_atom_no_dash_escape, parse_class_escape,
      consume_decimal_escape, consume_decimal_digits, digitsVal, hexDigitsVal,
      consume_quantifier, consume_reg_exp_unicode_escape_sequence,
      consume_fixed_hex_digits, consume_hex_digits,
      consume_legacy_octal_escape_sequence, consume_octal_digit,
      consume_identity_escape, consume_extended_pattern_character, consume_group_name,
      consume_unicode_property_value_expression, consume_unicode_property_name,
      consume_unicode_property_value, is_valid_unicode_property,
      is_valid_lone_unicode_property, is_valid_lone_unicode_property_of_strings,
      property_name_value_table, lone_property_table, lone_property_of_strings_table,
      Reader.eat, Reader.eat2, Reader.eat3, Reader.eat4, Reader.peek, Reader.peek2,
      Reader.advance, Reader.advanceBy, Reader.rest, Reader.span_position, cps,
      optsB, optsU, optsV, map_control_escape, map_c_ascii_letter, is_decimal_digit,
      is_syntax_character, map_hex_digit, is_ascii_letter, u16Len, u8Len, utf8Len,
      SpanFactory.create, Span.merge, hex_val, is_lead_surrogate, is_trail_surrogate,
      is_octal_digit, is_valid_unicode, combine_surrogate_pair,
      is_unicode_property_name_character, is_unicode_property_value_character,
      is_identifier_start_char, is_identifier_part_char, singleTermPattern,
      singleCharDisjunction, lookbehindPattern, lookaheadQuantifierPattern,
      emptyIgnoreGroupPattern, azRangePattern, aOneTwoPattern, basicEmojiPattern]
  · intro fuel src opts p h
    simp only [parse] at h
    repeat' split at h
    all_goals first
    | (exfalso; simp at h; done)
    | (simp only [Except.ok.injEq] at h
       subst h
       simp only [pattern_ranges_ok]
       solve_by_elim [(ranges_ok_master fuel).1])

/-- Witness for C5: the in-order parse result `azRangePattern` concretely
satisfies the range invariant, obtained by applying the general invariant
clause of `class_range_ordering` to its own concrete `[a-z]` parse. -/
theorem class_range_ordering_witness :
    pattern_ranges_ok azRangePattern = true :=
  class_range_ordering.2.2 30 (cps "[a-z]") optsB azRangePattern
    class_range_ordering.2.1

/-- Witness for C4: the quantifier mapping evaluated at the concrete
inputs `*` (star, greedy), `{7}` (braced, exactly seven, greedy) and
`{7}?` (braced with a trailing `?`, so greedy is false). -/
theorem quantifier_mapping_witness :
    consume_quantifier ⟨[42], 0⟩ = .ok (some ((0, none), true), ⟨[42], 1⟩) ∧
    consume_quantifier ⟨[123, 55, 125], 0⟩ =
      .ok (some ((digitsVal [55], some (digitsVal [55])), true),
           ⟨[123, 55, 125], 3⟩) ∧
    consume_quantifier ⟨[123, 55, 125, 63], 0⟩ =
      .ok (some ((digitsVal [55], some (digitsVal [55])), false),
           ⟨[123, 55, 125, 63], 4⟩) :=
  ⟨quantifier_mapping.1 [42] 0 (by decide) (by decide),
   quantifier_mapping.2.2.2.2.2.2.1 [55] [] (by decide) (by decide) (by decide),
   quantifier_mapping.2.2.2.2.2.2.2.2.2.1 [55] [] (by decide) (by decide)⟩

end OxcRe